import Mathlib

/-!
# Verification of the botasaurus no-code workflow execution engine

Shallow embedding of `src/botasaurus_nocode/execution_engine.py`,
`src/botasaurus_nocode/schemas.py` (the `WorkflowDefinition` validator) and
`src/botasaurus_nocode/service.py` (`WorkflowService.validate_workflow`).

Modelling conventions:
* Python dicts are insertion-ordered association lists (`dictGet` / `dictSet`
  mirror `dict.__getitem__` / in-place assignment).
* JSON-like runtime values are the `Value` inductive; Python truthiness is
  `truthy`.
* The external world (browser driver methods, HTTP, LLM service, file writes,
  and the sandboxed `eval`) is an oracle record `Env`; each suspension point
  consumes one `tick` of a ghost clock so that successive calls may observe
  different worlds.  `Except.error e` models a raised exception whose
  `str(...)` is `e`.
* Wall-clock timestamps and `duration_ms` fields of log entries are not
  modelled.  `ghost_execs` (one entry per executor invocation) and
  `ghost_sleeps` (one entry per retry-delay suspension) are write-only ghost
  instrumentation used to state retry-bound properties; no control flow reads
  them.
* Unbounded recursion of `_execute_from_node` is modelled with a `fuel`
  parameter; exhausting it behaves like Python's `RecursionError` (an
  exception raised at the deepest call, caught like any other).
-/

namespace Botasaurus

/-- `NodeType` enum from `schemas.py` (member names as in the source). -/
inductive NodeType where
  | NAVIGATE | CLICK | TYPE_TEXT | WAIT
  | EXTRACT_TEXT | EXTRACT_ATTRIBUTE | EXTRACT_MULTIPLE | SCREENSHOT
  | TRANSFORM | FILTER | MAP | MERGE
  | CONDITION | LOOP | PARALLEL
  | SAVE_JSON | SAVE_CSV | API_CALL | DATABASE
  | AI_EXTRACT | AI_CLASSIFY | AI_GENERATE
  | START | END
  deriving DecidableEq, Repr

/-- The enum's string value (`use_enum_values` makes this what f-strings show). -/
def NodeType.toStr : NodeType → String
  | .NAVIGATE => "navigate" | .CLICK => "click" | .TYPE_TEXT => "type_text"
  | .WAIT => "wait" | .EXTRACT_TEXT => "extract_text"
  | .EXTRACT_ATTRIBUTE => "extract_attribute"
  | .EXTRACT_MULTIPLE => "extract_multiple" | .SCREENSHOT => "screenshot"
  | .TRANSFORM => "transform" | .FILTER => "filter" | .MAP => "map"
  | .MERGE => "merge" | .CONDITION => "condition" | .LOOP => "loop"
  | .PARALLEL => "parallel" | .SAVE_JSON => "save_json"
  | .SAVE_CSV => "save_csv" | .API_CALL => "api_call" | .DATABASE => "database"
  | .AI_EXTRACT => "ai_extract" | .AI_CLASSIFY => "ai_classify"
  | .AI_GENERATE => "ai_generate" | .START => "start" | .END => "end"

/-- `WorkflowStatus` enum from `schemas.py`. -/
inductive WorkflowStatus where
  | DRAFT | ACTIVE | RUNNING | PAUSED | COMPLETED | FAILED | CANCELLED
  deriving DecidableEq, Repr

/-- JSON-like Python runtime values stored in the context's `data` map. -/
inductive Value where
  | null
  | bool (b : Bool)
  | int (n : Int)
  | str (s : String)
  | list (items : List Value)
  | dict (entries : List (String × Value))

/-- `d.get(k)` on an insertion-ordered dict. -/
def dictGet : List (String × Value) → String → Option Value
  | [], _ => none
  | (k', v) :: rest, k => if k' = k then some v else dictGet rest k

/-- `d[k] = v` on an insertion-ordered dict (update in place, append if new). -/
def dictSet : List (String × Value) → String → Value → List (String × Value)
  | [], k, v => [(k, v)]
  | (k', v') :: rest, k, v =>
    if k' = k then (k, v) :: rest else (k', v') :: dictSet rest k v

/-- `{**base, **kv}`: apply the entries of `kv` over `base` in order. -/
def pyDictUpdate (base : List (String × Value)) (kv : List (String × Value)) :
    List (String × Value) :=
  kv.foldl (fun d p => dictSet d p.1 p.2) base

/-- Python `bool(v)` for the modelled value types. -/
def truthy : Value → Bool
  | .null => false
  | .bool b => b
  | .int n => n != 0
  | .str s => s != ""
  | .list xs => !xs.isEmpty
  | .dict xs => !xs.isEmpty

/-- Python list slice `xs[:m]` for an `int` bound `m` (negative counts from
the end, clamped at zero). -/
def pySlice (xs : List Value) (m : Int) : List Value :=
  if 0 ≤ m then xs.take m.toNat else xs.take ((xs.length : Int) + m).toNat

/-- One `fields[]` element of `ExtractMultipleNodeConfig`
(`{"name": ..., "selector": ..., "attribute"?: ...}`). -/
structure ExtractField where
  name : String
  selector : String
  /-- the `"attribute"` key (`attribute` is reserved in Lean) -/
  attr : Option String
  deriving DecidableEq, Repr

/-- Kind-specific configuration payload: the fields the per-kind
`*NodeConfig` subclasses of `schemas.py` add on top of `BaseNodeConfig`.
`base` stands for node kinds whose config carries no extra fields used by the
engine (`start`, `end`, and the kinds without executors). -/
inductive NodeConfigSpec where
  | navigate (url : String) (wait_until : String)
  | click (selector : String) (selector_type : String)
      (wait_for_selector : Bool) (human_like : Bool)
  | type_text (selector : String) (text : String) (clear_first : Bool)
      (press_enter : Bool) (human_like : Bool)
  | wait (wait_type : String) (duration : Option Int) (selector : Option String)
  | extract_text (selector : String) (output_key : String) (trim : Bool)
      (default_value : Option Value)
  | extract_multiple (container_selector : String) (fields : List ExtractField)
      (output_key : String) (limit : Option Int)
  | transform (expression : String) (input_key : String) (output_key : String)
  | condition (condition : String)
  | loop (input_key : String) (loop_variable : String)
      (max_iterations : Option Int)
  | save_json (file_path : Option String) (data_key : Option String)
  | api_call (url : String) (method : String)
      (headers : Option (List (String × String))) (body : Option Value)
      (output_key : String)
  | ai_extract (prompt : String) (selector : Option String)
      (output_key : String) (use_vision : Bool)
  | base

/-- `BaseNodeConfig` fields plus the kind tag and the kind-specific payload.
`retry_count` / `retry_delay` are Python `int`s (`Field(0)` / `Field(2)`). -/
structure NodeConfig where
  type : NodeType
  enabled : Bool
  timeout : Option Int
  retry_count : Int
  retry_delay : Int
  spec : NodeConfigSpec

/-- `WorkflowNode` (canvas `position` is irrelevant to execution and omitted). -/
structure WorkflowNode where
  id : String
  config : NodeConfig

/-- `NodeConnection` from `schemas.py`. -/
structure NodeConnection where
  source_node_id : String
  source_handle : String
  target_node_id : String
  target_handle : String
  condition : Option String

/-- `WorkflowDefinition` (the raw pair; the pydantic validator is modelled
separately as `mkWorkflowDefinition`). -/
structure WorkflowDefinition where
  nodes : List WorkflowNode
  connections : List NodeConnection

/-- `ExecutionLogEntry` (timestamp and `duration_ms` not modelled;
the engine never passes the `data` payload). -/
structure ExecutionLogEntry where
  node_id : String
  node_type : NodeType
  status : String
  message : Option String
  deriving DecidableEq, Repr

/-- `ExecutionContext` from `execution_engine.py`, plus the ghost clock and
the write-only ghost instrumentation described in the file header. -/
structure ExecutionContext where
  data : List (String × Value)
  logs : List ExecutionLogEntry
  driver : Bool
  status : WorkflowStatus
  error : Option String
  tick : Nat
  ghost_execs : List String
  ghost_sleeps : List Int

/-- `ExecutionContext.__init__(input_data)`. -/
def ExecutionContext.init (input : List (String × Value)) : ExecutionContext :=
  { data := input, logs := [], driver := false, status := .RUNNING,
    error := none, tick := 0, ghost_execs := [], ghost_sleeps := [] }

/-- `context.log(...)`: append one entry. -/
def ExecutionContext.log (ctx : ExecutionContext) (node_id : String)
    (node_type : NodeType) (status : String) (message : Option String) :
    ExecutionContext :=
  { ctx with logs := ctx.logs ++
      [{ node_id := node_id, node_type := node_type, status := status,
         message := message }] }

/-- `context.set_data(key, value)`. -/
def ExecutionContext.set_data (ctx : ExecutionContext) (k : String)
    (v : Value) : ExecutionContext :=
  { ctx with data := dictSet ctx.data k v }

/-- `context.get_data(key, default)`. -/
def ExecutionContext.get_data (ctx : ExecutionContext) (k : String)
    (default : Value) : Value :=
  (dictGet ctx.data k).getD default

/-- Advance the ghost clock by one external interaction. -/
def ExecutionContext.bump (ctx : ExecutionContext) : ExecutionContext :=
  { ctx with tick := ctx.tick + 1 }

@[simp] theorem log_data (ctx : ExecutionContext) (i : String) (ty : NodeType)
    (st : String) (m : Option String) : (ctx.log i ty st m).data = ctx.data := rfl
@[simp] theorem log_logs (ctx : ExecutionContext) (i : String) (ty : NodeType)
    (st : String) (m : Option String) : (ctx.log i ty st m).logs =
      ctx.logs ++ [{ node_id := i, node_type := ty, status := st, message := m }] := rfl
@[simp] theorem log_driver (ctx : ExecutionContext) (i : String) (ty : NodeType)
    (st : String) (m : Option String) : (ctx.log i ty st m).driver = ctx.driver := rfl
@[simp] theorem log_status (ctx : ExecutionContext) (i : String) (ty : NodeType)
    (st : String) (m : Option String) : (ctx.log i ty st m).status = ctx.status := rfl
@[simp] theorem log_error (ctx : ExecutionContext) (i : String) (ty : NodeType)
    (st : String) (m : Option String) : (ctx.log i ty st m).error = ctx.error := rfl
@[simp] theorem log_tick (ctx : ExecutionContext) (i : String) (ty : NodeType)
    (st : String) (m : Option String) : (ctx.log i ty st m).tick = ctx.tick := rfl
@[simp] theorem log_ghost_execs (ctx : ExecutionContext) (i : String)
    (ty : NodeType) (st : String) (m : Option String) :
    (ctx.log i ty st m).ghost_execs = ctx.ghost_execs := rfl
@[simp] theorem log_ghost_sleeps (ctx : ExecutionContext) (i : String)
    (ty : NodeType) (st : String) (m : Option String) :
    (ctx.log i ty st m).ghost_sleeps = ctx.ghost_sleeps := rfl

@[simp] theorem bump_data (ctx : ExecutionContext) : ctx.bump.data = ctx.data := rfl
@[simp] theorem bump_logs (ctx : ExecutionContext) : ctx.bump.logs = ctx.logs := rfl
@[simp] theorem bump_driver (ctx : ExecutionContext) : ctx.bump.driver = ctx.driver := rfl
@[simp] theorem bump_status (ctx : ExecutionContext) : ctx.bump.status = ctx.status := rfl
@[simp] theorem bump_error (ctx : ExecutionContext) : ctx.bump.error = ctx.error := rfl
@[simp] theorem bump_ghost_execs (ctx : ExecutionContext) :
    ctx.bump.ghost_execs = ctx.ghost_execs := rfl
@[simp] theorem bump_ghost_sleeps (ctx : ExecutionContext) :
    ctx.bump.ghost_sleeps = ctx.ghost_sleeps := rfl

@[simp] theorem set_data_data (ctx : ExecutionContext) (k : String) (v : Value) :
    (ctx.set_data k v).data = dictSet ctx.data k v := rfl
@[simp] theorem set_data_logs (ctx : ExecutionContext) (k : String) (v : Value) :
    (ctx.set_data k v).logs = ctx.logs := rfl
@[simp] theorem set_data_driver (ctx : ExecutionContext) (k : String) (v : Value) :
    (ctx.set_data k v).driver = ctx.driver := rfl
@[simp] theorem set_data_status (ctx : ExecutionContext) (k : String) (v : Value) :
    (ctx.set_data k v).status = ctx.status := rfl
@[simp] theorem set_data_error (ctx : ExecutionContext) (k : String) (v : Value) :
    (ctx.set_data k v).error = ctx.error := rfl
@[simp] theorem set_data_ghost_execs (ctx : ExecutionContext) (k : String)
    (v : Value) : (ctx.set_data k v).ghost_execs = ctx.ghost_execs := rfl
@[simp] theorem set_data_ghost_sleeps (ctx : ExecutionContext) (k : String)
    (v : Value) : (ctx.set_data k v).ghost_sleeps = ctx.ghost_sleeps := rfl

/-- The external world: sandboxed `eval`, browser-driver methods, HTTP, the
LLM service, and file writes.  Driver element handles are opaque `Nat`s.
Every method takes the current ghost tick; `Except.error e` models a raised
exception with `str(...) = e`. -/
structure Env where
  evalExpr : String → List (String × Value) → Except String Value
  hasAiService : Bool
  browserInit : Except String Unit
  driverGet : Nat → String → Except String Unit
  waitForNetworkIdle : Nat → Except String Unit
  waitForLoad : Nat → Except String Unit
  waitForElement : Nat → Option String → Except String Unit
  waitForNavigation : Nat → Except String Unit
  driverClick : Nat → String → Bool → Except String Unit
  driverType : Nat → String → String → Bool → Except String Unit
  findElement : Nat → String → Except String Nat
  findElements : Nat → String → Except String (List Nat)
  elementText : Nat → Nat → Except String String
  elementHtml : Nat → Nat → Except String String
  elementClear : Nat → Nat → Except String Unit
  elementSendKeys : Nat → Nat → String → Except String Unit
  elementGetAttribute : Nat → Nat → String → Except String String
  elementFindElement : Nat → Nat → String → Except String Nat
  pageSource : Nat → Except String String
  screenshotB : Nat → Except String String
  httpJson : Nat → String → String → Option (List (String × String)) →
    Option Value → Except String Value
  aiExtractData : Nat → String → String → Option String → Except String Value
  writeFile : Nat → String → Value → Except String Unit

/-- An executor invocation: the mutated context plus `none` (returned
normally) or `some e` (raised an exception whose message is `e`). -/
abbrev ExecResult := ExecutionContext × Option String

/-- Namespace for edge-condition evaluation:
`{'data': context.data, **context.data}`. -/
def condNamespace (data : List (String × Value)) : List (String × Value) :=
  pyDictUpdate [("data", Value.dict data)] data

/-- Namespace for `transform` evaluation: `{'value': ..., 'data': ...}`;
the fixed helper bindings (`re`, `json`, `len`, `str`, `int`, `float`,
`list`, `dict`) are constants folded into the oracle's semantics. -/
def transformNamespace (v : Value) (data : List (String × Value)) :
    List (String × Value) :=
  [("value", v), ("data", Value.dict data)]

/-- `_execute_start`. -/
def _execute_start (node : WorkflowNode) (ctx : ExecutionContext) : ExecResult :=
  (ctx.log node.id .START "success" (some "Workflow started"), none)

/-- `_execute_end`. -/
def _execute_end (node : WorkflowNode) (ctx : ExecutionContext) : ExecResult :=
  (ctx.log node.id .END "success" (some "Workflow completed"), none)

/-- Tail of `_execute_navigate` after `driver.get(url)` succeeded:
the `wait_until` dispatch and the success log. -/
def navigateWaitPhase (env : Env) (node : WorkflowNode) (url wait_until : String)
    (ctx : ExecutionContext) : ExecResult :=
  if wait_until = "networkidle" then
    match env.waitForNetworkIdle ctx.tick with
    | .error e => (ctx.bump, some e)
    | .ok _ =>
      ((ctx.bump).log node.id .NAVIGATE "success"
        (some ("Navigated to " ++ url)), none)
  else if wait_until = "load" then
    match env.waitForLoad ctx.tick with
    | .error e => (ctx.bump, some e)
    | .ok _ =>
      ((ctx.bump).log node.id .NAVIGATE "success"
        (some ("Navigated to " ++ url)), none)
  else
    (ctx.log node.id .NAVIGATE "success" (some ("Navigated to " ++ url)), none)

/-- `_execute_navigate`.  A config object of the wrong subclass makes the
Python attribute accesses raise; that is the `AttributeError` fall-through. -/
def _execute_navigate (env : Env) (node : WorkflowNode)
    (ctx : ExecutionContext) : ExecResult :=
  match node.config.spec with
  | .navigate url wait_until =>
    if ctx.driver = false then (ctx, some "Browser not initialized")
    else
      match env.driverGet ctx.tick url with
      | .error e => (ctx.bump, some e)
      | .ok _ => navigateWaitPhase env node url wait_until ctx.bump
  | _ => (ctx, some "AttributeError")

/-- `driver.click(...)` plus the success log of `_execute_click`. -/
def clickPhase (env : Env) (node : WorkflowNode) (selector : String)
    (human_like : Bool) (ctx : ExecutionContext) : ExecResult :=
  match env.driverClick ctx.tick selector human_like with
  | .error e => (ctx.bump, some e)
  | .ok _ =>
    ((ctx.bump).log node.id .CLICK "success"
      (some ("Clicked " ++ selector)), none)

/-- `_execute_click`. -/
def _execute_click (env : Env) (node : WorkflowNode)
    (ctx : ExecutionContext) : ExecResult :=
  match node.config.spec with
  | .click selector _selector_type wait_for_selector human_like =>
    if ctx.driver = false then (ctx, some "Browser not initialized")
    else if wait_for_selector then
      match env.waitForElement ctx.tick (some selector) with
      | .error e => (ctx.bump, some e)
      | .ok _ => clickPhase env node selector human_like ctx.bump
    else clickPhase env node selector human_like ctx
  | _ => (ctx, some "AttributeError")

/-- `element.send_keys("\n")` (when `press_enter`) plus the success log of
`_execute_type_text`. -/
def typeTextEnterPhase (env : Env) (node : WorkflowNode) (selector : String)
    (press_enter : Bool) (element : Nat) (ctx : ExecutionContext) : ExecResult :=
  if press_enter then
    match env.elementSendKeys ctx.tick element "\n" with
    | .error e => (ctx.bump, some e)
    | .ok _ =>
      ((ctx.bump).log node.id .TYPE_TEXT "success"
        (some ("Typed into " ++ selector)), none)
  else
    (ctx.log node.id .TYPE_TEXT "success" (some ("Typed into " ++ selector)),
     none)

/-- The typing step of `_execute_type_text` (`driver.type(...)` for
human-like, `element.send_keys(text)` otherwise) and what follows. -/
def typeTextTypePhase (env : Env) (node : WorkflowNode)
    (selector text : String) (press_enter human_like : Bool) (element : Nat)
    (ctx : ExecutionContext) : ExecResult :=
  if human_like then
    match env.driverType ctx.tick selector text true with
    | .error e => (ctx.bump, some e)
    | .ok _ => typeTextEnterPhase env node selector press_enter element ctx.bump
  else
    match env.elementSendKeys ctx.tick element text with
    | .error e => (ctx.bump, some e)
    | .ok _ => typeTextEnterPhase env node selector press_enter element ctx.bump

/-- `_execute_type_text`. -/
def _execute_type_text (env : Env) (node : WorkflowNode)
    (ctx : ExecutionContext) : ExecResult :=
  match node.config.spec with
  | .type_text selector text clear_first press_enter human_like =>
    if ctx.driver = false then (ctx, some "Browser not initialized")
    else
      match env.findElement ctx.tick selector with
      | .error e => (ctx.bump, some e)
      | .ok element =>
        let ctx := ctx.bump
        if clear_first then
          match env.elementClear ctx.tick element with
          | .error e => (ctx.bump, some e)
          | .ok _ =>
            typeTextTypePhase env node selector text press_enter human_like
              element ctx.bump
        else
          typeTextTypePhase env node selector text press_enter human_like
            element ctx
  | _ => (ctx, some "AttributeError")

/-- `_execute_wait`.  The `"time"` branch's `asyncio.sleep(duration or 1)`
is an external suspension: one ghost tick. -/
def _execute_wait (env : Env) (node : WorkflowNode)
    (ctx : ExecutionContext) : ExecResult :=
  match node.config.spec with
  | .wait wait_type _duration selector =>
    if wait_type = "time" then
      ((ctx.bump).log node.id .WAIT "success"
        (some ("Wait completed: " ++ wait_type)), none)
    else if wait_type = "element" ∧ ctx.driver then
      match env.waitForElement ctx.tick selector with
      | .error e => (ctx.bump, some e)
      | .ok _ =>
        ((ctx.bump).log node.id .WAIT "success"
          (some ("Wait completed: " ++ wait_type)), none)
    else if wait_type = "navigation" ∧ ctx.driver then
      match env.waitForNavigation ctx.tick with
      | .error e => (ctx.bump, some e)
      | .ok _ =>
        ((ctx.bump).log node.id .WAIT "success"
          (some ("Wait completed: " ++ wait_type)), none)
    else if wait_type = "network" ∧ ctx.driver then
      match env.waitForNetworkIdle ctx.tick with
      | .error e => (ctx.bump, some e)
      | .ok _ =>
        ((ctx.bump).log node.id .WAIT "success"
          (some ("Wait completed: " ++ wait_type)), none)
    else
      (ctx.log node.id .WAIT "success"
        (some ("Wait completed: " ++ wait_type)), none)
  | _ => (ctx, some "AttributeError")

/-- `driver.find_element(selector)` followed by `element.text()`:
the body of `_execute_extract_text`'s `try`-block lookup. -/
def lookupText (env : Env) (selector : String) (ctx : ExecutionContext) :
    ExecutionContext × Except String String :=
  match env.findElement ctx.tick selector with
  | .error e => (ctx.bump, .error e)
  | .ok element =>
    let ctx := ctx.bump
    match env.elementText ctx.tick element with
    | .error e => (ctx.bump, .error e)
    | .ok t => (ctx.bump, .ok t)

/-- `_execute_extract_text`.  The Python success message interpolates
`text[:50]`; the `repr` of the default value in the fallback message is not
reproduced. -/
def _execute_extract_text (env : Env) (node : WorkflowNode)
    (ctx : ExecutionContext) : ExecResult :=
  match node.config.spec with
  | .extract_text selector output_key trim default_value =>
    if ctx.driver = false then (ctx, some "Browser not initialized")
    else
      match lookupText env selector ctx with
      | (ctx, .ok text0) =>
        let text := if trim then text0.trim else text0
        ((ctx.set_data output_key (.str text)).log node.id .EXTRACT_TEXT
          "success" (some ("Extracted: " ++ text.take 50 ++ "...")), none)
      | (ctx, .error e) =>
        match default_value with
        | some d =>
          ((ctx.set_data output_key d).log node.id .EXTRACT_TEXT "success"
            (some "Used default value"), none)
        | none => (ctx, some e)
  | _ => (ctx, some "AttributeError")

/-- Extract one field from a container element; any raise inside the inner
`try` yields `None` (`_execute_extract_multiple`'s field loop body). -/
def extractField (env : Env) (container : Nat) (field : ExtractField)
    (ctx : ExecutionContext) : ExecutionContext × Value :=
  match env.elementFindElement ctx.tick container field.selector with
  | .error _ => (ctx.bump, .null)
  | .ok sub =>
    let ctx := ctx.bump
    match field.attr with
    | some a =>
      match env.elementGetAttribute ctx.tick sub a with
      | .error _ => (ctx.bump, .null)
      | .ok v => (ctx.bump, .str v)
    | none =>
      match env.elementText ctx.tick sub with
      | .error _ => (ctx.bump, .null)
      | .ok t => (ctx.bump, .str t)

/-- All fields of one container (`item_data` accumulation, in order). -/
def extractFields (env : Env) (container : Nat) :
    List ExtractField → ExecutionContext →
    ExecutionContext × List (String × Value)
  | [], ctx => (ctx, [])
  | f :: rest, ctx =>
    let (ctx, v) := extractField env container f ctx
    let (ctx, tail) := extractFields env container rest ctx
    (ctx, (f.name, v) :: tail)

/-- Python truthiness test `if config.limit and i >= config.limit`. -/
def limitReached (limit : Option Int) (i : Nat) : Bool :=
  match limit with
  | some m => m != 0 && m ≤ (i : Int)
  | none => false

/-- The container loop of `_execute_extract_multiple` (`break` on limit). -/
def extractContainers (env : Env) (fields : List ExtractField)
    (limit : Option Int) : List Nat → Nat → ExecutionContext →
    ExecutionContext × List Value
  | [], _, ctx => (ctx, [])
  | c :: rest, i, ctx =>
    if limitReached limit i then (ctx, [])
    else
      let (ctx, item) := extractFields env c fields ctx
      let (ctx, tail) := extractContainers env fields limit rest (i + 1) ctx
      (ctx, .dict item :: tail)

/-- `_execute_extract_multiple`. -/
def _execute_extract_multiple (env : Env) (node : WorkflowNode)
    (ctx : ExecutionContext) : ExecResult :=
  match node.config.spec with
  | .extract_multiple container_selector fields output_key limit =>
    if ctx.driver = false then (ctx, some "Browser not initialized")
    else
      match env.findElements ctx.tick container_selector with
      | .error e => (ctx.bump, some e)
      | .ok containers =>
        let (ctx, results) :=
          extractContainers env fields limit containers 0 ctx.bump
        ((ctx.set_data output_key (.list results)).log node.id
          .EXTRACT_MULTIPLE "success"
          (some ("Extracted " ++ toString results.length ++ " items")), none)
  | _ => (ctx, some "AttributeError")

/-- `_execute_transform`: `eval` in the restricted namespace; an `EvalError`
propagates as the executor's failure. -/
def _execute_transform (env : Env) (node : WorkflowNode)
    (ctx : ExecutionContext) : ExecResult :=
  match node.config.spec with
  | .transform expression input_key output_key =>
    let input_value := ctx.get_data input_key .null
    match env.evalExpr expression (transformNamespace input_value ctx.data) with
    | .error e => (ctx, some e)
    | .ok result =>
      ((ctx.set_data output_key result).log node.id .TRANSFORM "success"
        (some "Transformed data"), none)
  | _ => (ctx, some "AttributeError")

/-- `_execute_condition`: a pass-through (edges decide). -/
def _execute_condition (node : WorkflowNode) (ctx : ExecutionContext) :
    ExecResult :=
  (ctx.log node.id .CONDITION "success" (some "Condition evaluated"), none)

/-- The per-item logging loop of `_execute_loop`. -/
def loopIterate (node : WorkflowNode) (loop_variable : String) (total : Nat) :
    List Value → Nat → ExecutionContext → ExecutionContext
  | [], _, ctx => ctx
  | item :: rest, i, ctx =>
    let ctx := ctx.set_data loop_variable item
    let ctx := ctx.log node.id .LOOP "success"
      (some ("Loop iteration " ++ toString (i + 1) ++ "/" ++ toString total))
    loopIterate node loop_variable total rest (i + 1) ctx

/-- `_execute_loop`.  `config.max_iterations or len(items)` is Python `or`
(`None` and `0` fall back to the length).  The Python type-error message
interpolates `type(items)`; only its fixed prefix is kept. -/
def _execute_loop (node : WorkflowNode) (ctx : ExecutionContext) : ExecResult :=
  match node.config.spec with
  | .loop input_key loop_variable max_iterations =>
    match ctx.get_data input_key (.list []) with
    | .list xs =>
      let max_iter : Int :=
        match max_iterations with
        | some m => if m = 0 then (xs.length : Int) else m
        | none => (xs.length : Int)
      let items := pySlice xs max_iter
      let ctx := ctx.log node.id .LOOP "success"
        (some ("Looping over " ++ toString items.length ++ " items"))
      (loopIterate node loop_variable items.length items 0 ctx, none)
    | _ => (ctx, some "Loop input must be array")
  | _ => (ctx, some "AttributeError")

/-- The data selected by `_execute_save_json`
(`get_data(data_key)` when `data_key` is truthy, else the whole map copy). -/
def saveJsonPayload (data_key : Option String)
    (data : List (String × Value)) : Value :=
  match data_key with
  | some k => if k = "" then .dict data else (dictGet data k).getD .null
  | none => .dict data

/-- `_execute_save_json`. -/
def _execute_save_json (env : Env) (node : WorkflowNode)
    (ctx : ExecutionContext) : ExecResult :=
  match node.config.spec with
  | .save_json file_path data_key =>
    let payload := saveJsonPayload data_key ctx.data
    match file_path with
    | some p =>
      if p = "" then
        ((ctx.set_data "output" payload).log node.id .SAVE_JSON "success"
          (some "Saved JSON output"), none)
      else
        match env.writeFile ctx.tick p payload with
        | .error e => (ctx.bump, some e)
        | .ok _ =>
          (((ctx.bump).set_data "output" payload).log node.id .SAVE_JSON
            "success" (some "Saved JSON output"), none)
    | none =>
      ((ctx.set_data "output" payload).log node.id .SAVE_JSON "success"
        (some "Saved JSON output"), none)
  | _ => (ctx, some "AttributeError")

/-- `_execute_api_call` (the `aiohttp` request plus `response.json()`). -/
def _execute_api_call (env : Env) (node : WorkflowNode)
    (ctx : ExecutionContext) : ExecResult :=
  match node.config.spec with
  | .api_call url method headers body output_key =>
    match env.httpJson ctx.tick method url headers body with
    | .error e => (ctx.bump, some e)
    | .ok result =>
      (((ctx.bump).set_data output_key result).log node.id .API_CALL "success"
        (some ("API call completed: " ++ method ++ " " ++ url)), none)
  | _ => (ctx, some "AttributeError")

/-- The screenshot-then-AI tail of `_execute_ai_extract`
(`screenshot` is taken only when `use_vision and context.driver`). -/
def aiExtractCallPhase (env : Env) (node : WorkflowNode)
    (prompt : String) (output_key : String) (use_vision : Bool)
    (html : String) (ctx : ExecutionContext) : ExecResult :=
  if use_vision && ctx.driver then
    match env.screenshotB ctx.tick with
    | .error e => (ctx.bump, some e)
    | .ok shot =>
      let ctx := ctx.bump
      match env.aiExtractData ctx.tick prompt html
          (if use_vision then some shot else none) with
      | .error e => (ctx.bump, some e)
      | .ok result =>
        (((ctx.bump).set_data output_key result).log node.id .AI_EXTRACT
          "success" (some "AI extracted data"), none)
  else
    match env.aiExtractData ctx.tick prompt html none with
    | .error e => (ctx.bump, some e)
    | .ok result =>
      (((ctx.bump).set_data output_key result).log node.id .AI_EXTRACT
        "success" (some "AI extracted data"), none)

/-- `_execute_ai_extract`. -/
def _execute_ai_extract (env : Env) (node : WorkflowNode)
    (ctx : ExecutionContext) : ExecResult :=
  match node.config.spec with
  | .ai_extract prompt selector output_key use_vision =>
    if env.hasAiService = false then (ctx, some "AI service not configured")
    else if (selector.getD "" != "") && ctx.driver then
      match env.findElement ctx.tick (selector.getD "") with
      | .error e => (ctx.bump, some e)
      | .ok element =>
        let ctx := ctx.bump
        match env.elementHtml ctx.tick element with
        | .error e => (ctx.bump, some e)
        | .ok html =>
          aiExtractCallPhase env node prompt output_key use_vision html ctx.bump
    else if ctx.driver then
      match env.pageSource ctx.tick with
      | .error e => (ctx.bump, some e)
      | .ok html =>
        aiExtractCallPhase env node prompt output_key use_vision html ctx.bump
    else (ctx, some "Browser not initialized")
  | _ => (ctx, some "AttributeError")

/-- The node kinds present in `self.node_executors` (the registry). -/
def hasExecutor : NodeType → Bool
  | .START | .END | .NAVIGATE | .CLICK | .TYPE_TEXT | .WAIT
  | .EXTRACT_TEXT | .EXTRACT_MULTIPLE | .TRANSFORM | .CONDITION
  | .LOOP | .SAVE_JSON | .API_CALL | .AI_EXTRACT => true
  | _ => false

/-- `executor(node, context)`: registry dispatch by `node.config.type`.  The
ghost `ghost_execs` entry records the invocation; the catch-all is
unreachable from the walker (it checks the registry first). -/
def runExecutor (env : Env) (node : WorkflowNode) (ctx : ExecutionContext) :
    ExecResult :=
  let ctx := { ctx with ghost_execs := ctx.ghost_execs ++ [node.id] }
  match node.config.type with
  | .START => _execute_start node ctx
  | .END => _execute_end node ctx
  | .NAVIGATE => _execute_navigate env node ctx
  | .CLICK => _execute_click env node ctx
  | .TYPE_TEXT => _execute_type_text env node ctx
  | .WAIT => _execute_wait env node ctx
  | .EXTRACT_TEXT => _execute_extract_text env node ctx
  | .EXTRACT_MULTIPLE => _execute_extract_multiple env node ctx
  | .TRANSFORM => _execute_transform env node ctx
  | .CONDITION => _execute_condition node ctx
  | .LOOP => _execute_loop node ctx
  | .SAVE_JSON => _execute_save_json env node ctx
  | .API_CALL => _execute_api_call env node ctx
  | .AI_EXTRACT => _execute_ai_extract env node ctx
  | t => (ctx, some ("Unknown node type: " ++ t.toStr))

/-- The log message of an absorbed intermediate retry failure. -/
def retryMsg (attempt : Nat) (e : String) : String :=
  "Attempt " ++ toString (attempt + 1) ++ " failed: " ++ e ++ ", retrying..."

/-- `await asyncio.sleep(retry_delay)`: one external suspension, recorded in
the ghost sleep trace. -/
def retrySleep (node : WorkflowNode) (ctx : ExecutionContext) :
    ExecutionContext :=
  { ctx.bump with ghost_sleeps := ctx.ghost_sleeps ++ [node.config.retry_delay] }

@[simp] theorem retrySleep_data (node : WorkflowNode) (ctx : ExecutionContext) :
    (retrySleep node ctx).data = ctx.data := rfl
@[simp] theorem retrySleep_logs (node : WorkflowNode) (ctx : ExecutionContext) :
    (retrySleep node ctx).logs = ctx.logs := rfl
@[simp] theorem retrySleep_driver (node : WorkflowNode) (ctx : ExecutionContext) :
    (retrySleep node ctx).driver = ctx.driver := rfl
@[simp] theorem retrySleep_status (node : WorkflowNode) (ctx : ExecutionContext) :
    (retrySleep node ctx).status = ctx.status := rfl
@[simp] theorem retrySleep_error (node : WorkflowNode) (ctx : ExecutionContext) :
    (retrySleep node ctx).error = ctx.error := rfl
@[simp] theorem retrySleep_ghost_execs (node : WorkflowNode)
    (ctx : ExecutionContext) :
    (retrySleep node ctx).ghost_execs = ctx.ghost_execs := rfl
@[simp] theorem retrySleep_ghost_sleeps (node : WorkflowNode)
    (ctx : ExecutionContext) : (retrySleep node ctx).ghost_sleeps =
      ctx.ghost_sleeps ++ [node.config.retry_delay] := rfl

/-- The `for attempt in range(retry_count + 1)` loop of
`_execute_from_node`: `remaining` attempts left, `attempt` is the 0-based
index of the next one.  An intermediate failure logs, sleeps `retry_delay`
(ghost-recorded) and retries; the final failure is re-raised; a success logs
`"Executed successfully"` and breaks. -/
def runRetries (env : Env) (node : WorkflowNode) :
    Nat → Nat → ExecutionContext → ExecResult
  | 0, _, ctx => (ctx, none)
  | remaining + 1, attempt, ctx =>
    match runExecutor env node ctx with
    | (ctx', none) =>
      (ctx'.log node.id node.config.type "success"
        (some "Executed successfully"), none)
    | (ctx', some e) =>
      if remaining = 0 then (ctx', some e)
      else
        runRetries env node remaining (attempt + 1)
          (retrySleep node (ctx'.log node.id node.config.type "error"
            (some (retryMsg attempt e))))

/-- `_evaluate_condition`: `eval` in `{'data': data, **data}` with empty
builtins; any exception is logged (under node id `"condition"`) and becomes
`False`. -/
def _evaluate_condition (env : Env) (condition : String)
    (ctx : ExecutionContext) : Bool × ExecutionContext :=
  match env.evalExpr condition (condNamespace ctx.data) with
  | .ok v => (truthy v, ctx)
  | .error e =>
    (false, ctx.log "condition" .CONDITION "error"
      (some ("Condition evaluation failed: " ++ e)))

/-- The connection loop of `_get_next_nodes` over the already-filtered
outgoing connections.  `if conn.condition:` is Python truthiness (absent or
empty string skips evaluation and takes the edge); the target is the first
node with the matching id, or dropped when absent. -/
def gatherNext (env : Env) (wf : WorkflowDefinition) :
    List NodeConnection → ExecutionContext →
    List WorkflowNode × ExecutionContext
  | [], ctx => ([], ctx)
  | conn :: rest, ctx =>
    match conn.condition with
    | some c =>
      if c = "" then
        let (tail, ctx') := gatherNext env wf rest ctx
        match wf.nodes.find? (fun n => n.id == conn.target_node_id) with
        | some t => (t :: tail, ctx')
        | none => (tail, ctx')
      else
        let (b, ctx') := _evaluate_condition env c ctx
        if b then
          let (tail, ctx'') := gatherNext env wf rest ctx'
          match wf.nodes.find? (fun n => n.id == conn.target_node_id) with
          | some t => (t :: tail, ctx'')
          | none => (tail, ctx'')
        else gatherNext env wf rest ctx'
    | none =>
      let (tail, ctx') := gatherNext env wf rest ctx
      match wf.nodes.find? (fun n => n.id == conn.target_node_id) with
      | some t => (t :: tail, ctx')
      | none => (tail, ctx')

/-- `_get_next_nodes`. -/
def _get_next_nodes (env : Env) (current : WorkflowNode)
    (wf : WorkflowDefinition) (ctx : ExecutionContext) :
    List WorkflowNode × ExecutionContext :=
  gatherNext env wf
    (wf.connections.filter (fun c => c.source_node_id == current.id)) ctx

/-- The `for next_node in next_nodes:` loop: run children in order, a raise
aborts the loop and propagates. -/
def execChildrenWith
    (f : WorkflowNode → ExecutionContext → ExecResult) :
    List WorkflowNode → ExecutionContext → ExecResult
  | [], ctx => (ctx, none)
  | n :: rest, ctx =>
    match f n ctx with
    | (ctx', none) => execChildrenWith f rest ctx'
    | (ctx', some e) => (ctx', some e)

/-- `_execute_from_node`.  Out of fuel models `RecursionError`.  A disabled
node logs `skipped` and returns.  A missing registry entry raises
`Unknown node type` which the frame's handler logs and re-raises.  Otherwise
the retry loop runs, then the frame descends into `_get_next_nodes`; any
exception reaching the frame is logged for this node and re-raised. -/
def _execute_from_node (env : Env) (wf : WorkflowDefinition) :
    Nat → WorkflowNode → ExecutionContext → ExecResult
  | 0, _, ctx => (ctx, some "maximum recursion depth exceeded")
  | fuel + 1, node, ctx =>
    if node.config.enabled = false then
      (ctx.log node.id node.config.type "skipped" (some "Node is disabled"),
       none)
    else if hasExecutor node.config.type = false then
      let e := "Unknown node type: " ++ node.config.type.toStr
      (ctx.log node.id node.config.type "error" (some ("Failed: " ++ e)),
       some e)
    else
      match runRetries env node (node.config.retry_count + 1).toNat 0 ctx with
      | (ctx1, some e) =>
        (ctx1.log node.id node.config.type "error" (some ("Failed: " ++ e)),
         some e)
      | (ctx1, none) =>
        let next := _get_next_nodes env node wf ctx1
        match execChildrenWith (_execute_from_node env wf fuel) next.1
            next.2 with
        | (ctx3, none) => (ctx3, none)
        | (ctx3, some e) =>
          (ctx3.log node.id node.config.type "error" (some ("Failed: " ++ e)),
           some e)

/-- `_needs_browser`: the browser subset actually tested by the engine
(note: `WAIT` is not in this set). -/
def _needs_browser (wf : WorkflowDefinition) : Bool :=
  wf.nodes.any (fun n =>
    [NodeType.NAVIGATE, .CLICK, .TYPE_TEXT, .EXTRACT_TEXT,
      .EXTRACT_MULTIPLE, .SCREENSHOT].contains n.config.type)

/-- The `try/except/finally` body of `execute` after browser setup: find the
START node (first by declaration order), traverse, promote a still-`RUNNING`
status to `COMPLETED`; any escaped exception marks the run `FAILED` with
`error = str(e)` and a final log entry under node id `"error"`.
`_cleanup_browser` is a no-op. -/
def executeMain (env : Env) (wf : WorkflowDefinition) (fuel : Nat)
    (ctx : ExecutionContext) : ExecutionContext :=
  match wf.nodes.find? (fun n => n.config.type == NodeType.START) with
  | none =>
    let e := "No START node found in workflow"
    { (ctx.log "error" .START "error" (some ("Workflow failed: " ++ e))) with
      status := .FAILED, error := some e }
  | some start_node =>
    match _execute_from_node env wf fuel start_node ctx with
    | (ctx', none) =>
      if ctx'.status = .RUNNING then { ctx' with status := .COMPLETED }
      else ctx'
    | (ctx', some e) =>
      { (ctx'.log "error" .START "error" (some ("Workflow failed: " ++ e)))
        with status := .FAILED, error := some e }

/-- `WorkflowExecutionEngine.execute`: fresh context from the input, browser
initialization only when `_needs_browser` (its failure aborts the run before
any node executes), then the traversal body. -/
def execute (env : Env) (wf : WorkflowDefinition)
    (input : List (String × Value)) (fuel : Nat) : ExecutionContext :=
  let context := ExecutionContext.init input
  if _needs_browser wf then
    match env.browserInit with
    | .error e =>
      { context with
          status := .FAILED
          error := some ("Failed to initialize browser: " ++ e) }
    | .ok _ => executeMain env wf fuel { context with driver := true }
  else executeMain env wf fuel context

/-- `WorkflowDefinition.validate_start_node` (`schemas.py`): pydantic
rejects node lists without exactly one START node. -/
def validate_start_node (nodes : List WorkflowNode) :
    Except String (List WorkflowNode) :=
  let start_nodes := nodes.filter (fun n => n.config.type == NodeType.START)
  if start_nodes.length = 0 then
    .error "Workflow must have exactly one START node"
  else if 1 < start_nodes.length then
    .error "Workflow can only have one START node"
  else .ok nodes

/-- Constructing a typed `WorkflowDefinition` (running its validator). -/
def mkWorkflowDefinition (nodes : List WorkflowNode)
    (connections : List NodeConnection) : Except String WorkflowDefinition :=
  match validate_start_node nodes with
  | .error e => .error e
  | .ok ns => .ok { nodes := ns, connections := connections }

/-- The report returned by `WorkflowService.validate_workflow`. -/
structure ValidationReport where
  valid : Bool
  errors : List String
  warnings : List String
  error_count : Nat
  warning_count : Nat

/-- The dangling-endpoint error messages accumulated by the connection loop
of `validate_workflow`. -/
def connectionErrors (nodes : List WorkflowNode) :
    List NodeConnection → List String
  | [] => []
  | conn :: rest =>
    (if nodes.any (fun n => n.id == conn.source_node_id) then []
     else ["Connection references non-existent source node: " ++
       conn.source_node_id]) ++
    (if nodes.any (fun n => n.id == conn.target_node_id) then []
     else ["Connection references non-existent target node: " ++
       conn.target_node_id]) ++
    connectionErrors nodes rest

/-- `WorkflowService.validate_workflow` (`service.py`). -/
def validate_workflow (defn : WorkflowDefinition) : ValidationReport :=
  let start_nodes := defn.nodes.filter (fun n => n.config.type == NodeType.START)
  let startErrors :=
    if start_nodes.length = 0 then ["Workflow must have exactly one START node"]
    else if 1 < start_nodes.length then ["Workflow can only have one START node"]
    else []
  let end_nodes := defn.nodes.filter (fun n => n.config.type == NodeType.END)
  let warnings1 :=
    if end_nodes.length = 0 then ["Workflow should have at least one END node"]
    else []
  let connected := defn.connections.map (fun c => c.source_node_id) ++
    defn.connections.map (fun c => c.target_node_id)
  let disconnected := (defn.nodes.map (fun n => n.id)).eraseDups.filter
    (fun i => !connected.contains i && !start_nodes.any (fun n => n.id == i))
  let warnings := warnings1 ++
    (if disconnected.length ≠ 0 then
      [toString disconnected.length ++ " node(s) are not connected"]
     else [])
  let errors := startErrors ++ connectionErrors defn.nodes defn.connections
  { valid := errors.length = 0, errors := errors, warnings := warnings,
    error_count := errors.length, warning_count := warnings.length }

/-! ## Concrete fixtures used by witnesses and counterexamples -/

/-- A benign world: every oracle succeeds, the sandbox always returns
`True`, no AI service. -/
def envW : Env :=
  { evalExpr := fun _ _ => .ok (.bool true)
    hasAiService := false
    browserInit := .ok ()
    driverGet := fun _ _ => .ok ()
    waitForNetworkIdle := fun _ => .ok ()
    waitForLoad := fun _ => .ok ()
    waitForElement := fun _ _ => .ok ()
    waitForNavigation := fun _ => .ok ()
    driverClick := fun _ _ _ => .ok ()
    driverType := fun _ _ _ _ => .ok ()
    findElement := fun _ _ => .ok 0
    findElements := fun _ _ => .ok []
    elementText := fun _ _ => .ok ""
    elementHtml := fun _ _ => .ok ""
    elementClear := fun _ _ => .ok ()
    elementSendKeys := fun _ _ _ => .ok ()
    elementGetAttribute := fun _ _ _ => .ok ""
    elementFindElement := fun _ _ _ => .ok 0
    pageSource := fun _ => .ok "<html></html>"
    screenshotB := fun _ => .ok ""
    httpJson := fun _ _ _ _ _ => .ok .null
    aiExtractData := fun _ _ _ _ => .ok .null
    writeFile := fun _ _ _ => .ok () }

/-- Same world except the sandboxed `eval` always raises `"boom"`. -/
def envFail : Env := { envW with evalExpr := fun _ _ => .error "boom" }

/-- Same world except element lookup always raises `"no such element"`. -/
def envNoElem : Env :=
  { envW with findElement := fun _ _ => .error "no such element" }

/-- Default `BaseNodeConfig` field values with a given kind tag. -/
def baseCfg (t : NodeType) : NodeConfig :=
  { type := t, enabled := true, timeout := none, retry_count := 0,
    retry_delay := 2, spec := .base }

/-- A node with default config. -/
def mkNode (i : String) (t : NodeType) : WorkflowNode :=
  { id := i, config := baseCfg t }

/-- An unconditional connection. -/
def mkConn (s t : String) : NodeConnection :=
  { source_node_id := s, source_handle := "output", target_node_id := t,
    target_handle := "input", condition := none }

/-- A disabled condition node. -/
def nodeB : WorkflowNode :=
  { id := "B", config := { baseCfg .CONDITION with
      enabled := false, spec := .condition "x" } }

/-- `start → disabled condition node B → end E`. -/
def wfC3 : WorkflowDefinition :=
  { nodes := [mkNode "S" .START, nodeB, mkNode "E" .END]
    connections := [mkConn "S" "B", mkConn "B" "E"] }

/-- `start → loop L over the absent key "items" → end E`. -/
def wfLoop : WorkflowDefinition :=
  { nodes := [mkNode "S" .START,
      { id := "L", config := { baseCfg .LOOP with
          spec := .loop "items" "item" none } },
      mkNode "E" .END]
    connections := [mkConn "S" "L", mkConn "L" "E"] }

/-- The loop node of `wfLoop`. -/
def nodeL : WorkflowNode :=
  { id := "L", config := { baseCfg .LOOP with spec := .loop "items" "item" none } }

/-- `start → wait W` (a workflow whose only non-control node kind is `wait`). -/
def wfWait : WorkflowDefinition :=
  { nodes := [mkNode "S" .START,
      { id := "W", config := { baseCfg .WAIT with
          spec := .wait "element" none (some "#x") } }]
    connections := [mkConn "S" "W"] }

/-- A `save_json` node with neither `file_path` nor `data_key`. -/
def nodeSJ : WorkflowNode :=
  { id := "J", config := { baseCfg .SAVE_JSON with spec := .save_json none none } }

/-- A `save_json` node with `data_key = "title"`. -/
def nodeSJK : WorkflowNode :=
  { id := "J", config := { baseCfg .SAVE_JSON with
      spec := .save_json none (some "title") } }

/-- A transform node whose expression the sandbox will reject under
`envFail`. -/
def nodeT : WorkflowNode :=
  { id := "T", config := { baseCfg .TRANSFORM with
      spec := .transform "1/0" "x" "y" } }

/-- `start → transform T` whose expression the sandbox rejects. -/
def wfT : WorkflowDefinition :=
  { nodes := [mkNode "S" .START, nodeT]
    connections := [mkConn "S" "T"] }

/-- A single-start-node workflow accepted by the pydantic validator. -/
def wfSolo : WorkflowDefinition :=
  { nodes := [mkNode "S" .START], connections := [] }

/-- An `extract_text` node with a default value. -/
def nodeXT (dv : Option Value) : WorkflowNode :=
  { id := "X", config := { baseCfg .EXTRACT_TEXT with
      spec := .extract_text "h1" "title" true dv } }

/-! ## Infrastructure lemmas -/

theorem dictGet_dictSet_self (d : List (String × Value)) (k : String)
    (v : Value) : dictGet (dictSet d k v) k = some v := by
  induction d with
  | nil => simp [dictSet, dictGet]
  | cons p rest ih =>
    obtain ⟨k', v'⟩ := p
    by_cases h : k' = k <;> simp [dictSet, dictGet, h, ih]

theorem dictGet_dictSet_ne (d : List (String × Value)) (k k' : String)
    (v : Value) (h : k ≠ k') : dictGet (dictSet d k v) k' = dictGet d k' := by
  induction d with
  | nil => simp [dictSet, dictGet, h]
  | cons p rest ih =>
    obtain ⟨k0, v0⟩ := p
    by_cases h0 : k0 = k
    · subst h0; simp [dictSet, dictGet, h]
    · simp [dictSet, dictGet, h0, ih]

/-- A non-raising world: every oracle failure message is a non-empty string
(Python's `str(e)` of the exceptions these external collaborators raise). -/
structure EnvWF (env : Env) : Prop where
  evalExpr : ∀ s ns e, env.evalExpr s ns = .error e → e ≠ ""
  driverGet : ∀ t u e, env.driverGet t u = .error e → e ≠ ""
  waitForNetworkIdle : ∀ t e, env.waitForNetworkIdle t = .error e → e ≠ ""
  waitForLoad : ∀ t e, env.waitForLoad t = .error e → e ≠ ""
  waitForElement : ∀ t s e, env.waitForElement t s = .error e → e ≠ ""
  waitForNavigation : ∀ t e, env.waitForNavigation t = .error e → e ≠ ""
  driverClick : ∀ t s h e, env.driverClick t s h = .error e → e ≠ ""
  driverType : ∀ t s x h e, env.driverType t s x h = .error e → e ≠ ""
  findElement : ∀ t s e, env.findElement t s = .error e → e ≠ ""
  findElements : ∀ t s e, env.findElements t s = .error e → e ≠ ""
  elementText : ∀ t el e, env.elementText t el = .error e → e ≠ ""
  elementHtml : ∀ t el e, env.elementHtml t el = .error e → e ≠ ""
  elementClear : ∀ t el e, env.elementClear t el = .error e → e ≠ ""
  elementSendKeys : ∀ t el s e, env.elementSendKeys t el s = .error e → e ≠ ""
  pageSource : ∀ t e, env.pageSource t = .error e → e ≠ ""
  screenshotB : ∀ t e, env.screenshotB t = .error e → e ≠ ""
  httpJson : ∀ t m u h b e, env.httpJson t m u h b = .error e → e ≠ ""
  aiExtractData : ∀ t p ht s e, env.aiExtractData t p ht s = .error e → e ≠ ""
  writeFile : ∀ t p v e, env.writeFile t p v = .error e → e ≠ ""

/-- The raised message, if any, is non-empty in a non-raising world. -/
def msgOK (env : Env) (r : Option String) : Prop :=
  ∀ e, r = some e → EnvWF env → e ≠ ""

theorem msgOK_none {env : Env} : msgOK env none := by
  intro e he; cases he

theorem msgOK_lit {env : Env} {e : String} (h : e ≠ "") :
    msgOK env (some e) := by
  intro e' he' _; cases he'; exact h

/-- What a single executor body may do to the context: status, driver,
error and the ghost retry instrumentation are untouched; logs only grow,
and only with `success` entries. -/
structure ExecStep (a b : ExecutionContext) : Prop where
  status : b.status = a.status
  driver : b.driver = a.driver
  error : b.error = a.error
  sleeps : b.ghost_sleeps = a.ghost_sleeps
  execs : b.ghost_execs = a.ghost_execs
  logs : ∃ t, b.logs = a.logs ++ t ∧ ∀ x ∈ t, x.status = "success"

theorem ExecStep.erefl (a : ExecutionContext) : ExecStep a a :=
  ⟨by rfl, by rfl, by rfl, by rfl, by rfl, ⟨[], by simp, by simp⟩⟩

theorem ExecStep.etrans {a b c : ExecutionContext} (h1 : ExecStep a b)
    (h2 : ExecStep b c) : ExecStep a c := by
  obtain ⟨t1, ht1, hs1⟩ := h1.logs
  obtain ⟨t2, ht2, hs2⟩ := h2.logs
  refine ⟨h2.status.trans h1.status, h2.driver.trans h1.driver,
    h2.error.trans h1.error, h2.sleeps.trans h1.sleeps,
    h2.execs.trans h1.execs, ⟨t1 ++ t2, ?_, ?_⟩⟩
  · rw [ht2, ht1, List.append_assoc]
  · intro x hx
    rcases List.mem_append.mp hx with h | h
    · exact hs1 x h
    · exact hs2 x h

theorem execStep_bump (a : ExecutionContext) : ExecStep a a.bump :=
  ⟨by rfl, by rfl, by rfl, by rfl, by rfl, ⟨[], by simp [ExecutionContext.bump], by simp⟩⟩

theorem execStep_log_success (a : ExecutionContext) (i : String)
    (ty : NodeType) (m : Option String) :
    ExecStep a (a.log i ty "success" m) := by
  refine ⟨by rfl, by rfl, by rfl, by rfl, by rfl, ⟨_, by rfl, ?_⟩⟩
  intro x hx
  simp only [List.mem_singleton] at hx
  subst hx; rfl

theorem execStep_set_data (a : ExecutionContext) (k : String) (v : Value) :
    ExecStep a (a.set_data k v) :=
  ⟨by rfl, by rfl, by rfl, by rfl, by rfl,
    ⟨[], by simp [ExecutionContext.set_data], by simp⟩⟩

/-- Combined executor-body contract: an `ExecStep` on the context and a
non-empty message on failure (in a non-raising world). -/
def ExecSpec (env : Env) (ctx : ExecutionContext) (r : ExecResult) : Prop :=
  ExecStep ctx r.1 ∧ msgOK env r.2

theorem ExecSpec.lit (env : Env) (ctx : ExecutionContext) {e : String}
    (h : e ≠ "") : ExecSpec env ctx (ctx, some e) :=
  ⟨ExecStep.erefl ctx, msgOK_lit h⟩

theorem ExecSpec.oracleErr {env : Env} (ctx : ExecutionContext) {e : String}
    (h : EnvWF env → e ≠ "") : ExecSpec env ctx (ctx.bump, some e) :=
  ⟨execStep_bump ctx, fun e' he' hwf => by
    injection he' with h'; subst h'; exact h hwf⟩

theorem ExecSpec.okLog {env : Env} {ctx b : ExecutionContext}
    (h : ExecStep ctx b) (i : String) (ty : NodeType) (m : Option String) :
    ExecSpec env ctx (b.log i ty "success" m, none) :=
  ⟨h.etrans (execStep_log_success b i ty m), msgOK_none⟩

theorem execSpec_start (env : Env) (node : WorkflowNode)
    (ctx : ExecutionContext) : ExecSpec env ctx (_execute_start node ctx) :=
  ExecSpec.okLog (ExecStep.erefl ctx) _ _ _

theorem execSpec_end (env : Env) (node : WorkflowNode)
    (ctx : ExecutionContext) : ExecSpec env ctx (_execute_end node ctx) :=
  ExecSpec.okLog (ExecStep.erefl ctx) _ _ _

theorem execSpec_navigateWaitPhase (env : Env) (node : WorkflowNode)
    (url wait_until : String) (ctx : ExecutionContext) :
    ExecSpec env ctx (navigateWaitPhase env node url wait_until ctx) := by
  unfold navigateWaitPhase
  by_cases h1 : wait_until = "networkidle"
  · rw [if_pos h1]
    cases hc : env.waitForNetworkIdle ctx.tick with
    | error e =>
      exact ExecSpec.oracleErr ctx (fun hwf => hwf.waitForNetworkIdle _ _ hc)
    | ok u => exact ExecSpec.okLog (execStep_bump ctx) _ _ _
  · rw [if_neg h1]
    by_cases h2 : wait_until = "load"
    · rw [if_pos h2]
      cases hc : env.waitForLoad ctx.tick with
      | error e =>
        exact ExecSpec.oracleErr ctx (fun hwf => hwf.waitForLoad _ _ hc)
      | ok u => exact ExecSpec.okLog (execStep_bump ctx) _ _ _
    · rw [if_neg h2]
      exact ExecSpec.okLog (ExecStep.erefl ctx) _ _ _

theorem execSpec_navigate (env : Env) (node : WorkflowNode)
    (ctx : ExecutionContext) :
    ExecSpec env ctx (_execute_navigate env node ctx) := by
  unfold _execute_navigate
  cases hs : node.config.spec
  case navigate url wait_until =>
    dsimp only
    by_cases hd : ctx.driver = false
    · rw [if_pos hd]
      exact ExecSpec.lit env ctx (by decide)
    · rw [if_neg hd]
      cases hc : env.driverGet ctx.tick url with
      | error e =>
        exact ExecSpec.oracleErr ctx (fun hwf => hwf.driverGet _ _ _ hc)
      | ok u =>
        exact ⟨(execStep_bump ctx).etrans
            (execSpec_navigateWaitPhase env node url wait_until ctx.bump).1,
          (execSpec_navigateWaitPhase env node url wait_until ctx.bump).2⟩
  all_goals exact ExecSpec.lit env ctx (by decide)

theorem execSpec_clickPhase (env : Env) (node : WorkflowNode)
    (selector : String) (human_like : Bool) (ctx : ExecutionContext) :
    ExecSpec env ctx (clickPhase env node selector human_like ctx) := by
  unfold clickPhase
  cases hc : env.driverClick ctx.tick selector human_like with
  | error e =>
    exact ExecSpec.oracleErr ctx (fun hwf => hwf.driverClick _ _ _ _ hc)
  | ok u => exact ExecSpec.okLog (execStep_bump ctx) _ _ _

theorem execSpec_click (env : Env) (node : WorkflowNode)
    (ctx : ExecutionContext) :
    ExecSpec env ctx (_execute_click env node ctx) := by
  unfold _execute_click
  cases hs : node.config.spec
  case click selector st wait_for_selector human_like =>
    dsimp only
    by_cases hd : ctx.driver = false
    · rw [if_pos hd]
      exact ExecSpec.lit env ctx (by decide)
    · rw [if_neg hd]
      by_cases hw : wait_for_selector = true
      · rw [if_pos hw]
        cases hc : env.waitForElement ctx.tick (some selector) with
        | error e =>
          exact ExecSpec.oracleErr ctx (fun hwf => hwf.waitForElement _ _ _ hc)
        | ok u =>
          exact ⟨(execStep_bump ctx).etrans
              (execSpec_clickPhase env node selector human_like ctx.bump).1,
            (execSpec_clickPhase env node selector human_like ctx.bump).2⟩
      · rw [if_neg hw]
        exact execSpec_clickPhase env node selector human_like ctx
  all_goals exact ExecSpec.lit env ctx (by decide)

theorem execSpec_typeTextEnterPhase (env : Env) (node : WorkflowNode)
    (selector : String) (press_enter : Bool) (element : Nat)
    (ctx : ExecutionContext) :
    ExecSpec env ctx
      (typeTextEnterPhase env node selector press_enter element ctx) := by
  unfold typeTextEnterPhase
  by_cases hp : press_enter = true
  · rw [if_pos hp]
    cases hc : env.elementSendKeys ctx.tick element "\n" with
    | error e =>
      exact ExecSpec.oracleErr ctx (fun hwf => hwf.elementSendKeys _ _ _ _ hc)
    | ok u => exact ExecSpec.okLog (execStep_bump ctx) _ _ _
  · rw [if_neg hp]
    exact ExecSpec.okLog (ExecStep.erefl ctx) _ _ _

theorem execSpec_typeTextTypePhase (env : Env) (node : WorkflowNode)
    (selector text : String) (press_enter human_like : Bool) (element : Nat)
    (ctx : ExecutionContext) :
    ExecSpec env ctx
      (typeTextTypePhase env node selector text press_enter human_like
        element ctx) := by
  unfold typeTextTypePhase
  by_cases hh : human_like = true
  · rw [if_pos hh]
    cases hc : env.driverType ctx.tick selector text true with
    | error e =>
      exact ExecSpec.oracleErr ctx (fun hwf => hwf.driverType _ _ _ _ _ hc)
    | ok u =>
      exact ⟨(execStep_bump ctx).etrans
          (execSpec_typeTextEnterPhase env node selector press_enter element
            ctx.bump).1,
        (execSpec_typeTextEnterPhase env node selector press_enter element
          ctx.bump).2⟩
  · rw [if_neg hh]
    cases hc : env.elementSendKeys ctx.tick element text with
    | error e =>
      exact ExecSpec.oracleErr ctx (fun hwf => hwf.elementSendKeys _ _ _ _ hc)
    | ok u =>
      exact ⟨(execStep_bump ctx).etrans
          (execSpec_typeTextEnterPhase env node selector press_enter element
            ctx.bump).1,
        (execSpec_typeTextEnterPhase env node selector press_enter element
          ctx.bump).2⟩

theorem execSpec_type_text (env : Env) (node : WorkflowNode)
    (ctx : ExecutionContext) :
    ExecSpec env ctx (_execute_type_text env node ctx) := by
  unfold _execute_type_text
  cases hs : node.config.spec
  case type_text selector text clear_first press_enter human_like =>
    dsimp only
    by_cases hd : ctx.driver = false
    · rw [if_pos hd]
      exact ExecSpec.lit env ctx (by decide)
    · rw [if_neg hd]
      cases hc : env.findElement ctx.tick selector with
      | error e =>
        exact ExecSpec.oracleErr ctx (fun hwf => hwf.findElement _ _ _ hc)
      | ok element =>
        dsimp only
        by_cases hcl : clear_first = true
        · rw [if_pos hcl]
          cases hc2 : env.elementClear ctx.bump.tick element with
          | error e =>
            exact ⟨(execStep_bump ctx).etrans (execStep_bump ctx.bump),
              fun e' he' hwf => by
                injection he' with h'; subst h'
                exact hwf.elementClear _ _ _ hc2⟩
          | ok u =>
            exact ⟨((execStep_bump ctx).etrans (execStep_bump ctx.bump)).etrans
                (execSpec_typeTextTypePhase env node selector text press_enter
                  human_like element ctx.bump.bump).1,
              (execSpec_typeTextTypePhase env node selector text press_enter
                human_like element ctx.bump.bump).2⟩
        · rw [if_neg hcl]
          exact ⟨(execStep_bump ctx).etrans
              (execSpec_typeTextTypePhase env node selector text press_enter
                human_like element ctx.bump).1,
            (execSpec_typeTextTypePhase env node selector text press_enter
              human_like element ctx.bump).2⟩
  all_goals exact ExecSpec.lit env ctx (by decide)

theorem execSpec_wait (env : Env) (node : WorkflowNode)
    (ctx : ExecutionContext) :
    ExecSpec env ctx (_execute_wait env node ctx) := by
  unfold _execute_wait
  cases hs : node.config.spec
  case wait wait_type duration selector =>
    dsimp only
    by_cases h1 : wait_type = "time"
    · rw [if_pos h1]
      exact ExecSpec.okLog (execStep_bump ctx) _ _ _
    · rw [if_neg h1]
      by_cases h2 : wait_type = "element" ∧ ctx.driver = true
      · rw [if_pos h2]
        cases hc : env.waitForElement ctx.tick selector with
        | error e =>
          exact ExecSpec.oracleErr ctx (fun hwf => hwf.waitForElement _ _ _ hc)
        | ok u => exact ExecSpec.okLog (execStep_bump ctx) _ _ _
      · rw [if_neg h2]
        by_cases h3 : wait_type = "navigation" ∧ ctx.driver = true
        · rw [if_pos h3]
          cases hc : env.waitForNavigation ctx.tick with
          | error e =>
            exact ExecSpec.oracleErr ctx
              (fun hwf => hwf.waitForNavigation _ _ hc)
          | ok u => exact ExecSpec.okLog (execStep_bump ctx) _ _ _
        · rw [if_neg h3]
          by_cases h4 : wait_type = "network" ∧ ctx.driver = true
          · rw [if_pos h4]
            cases hc : env.waitForNetworkIdle ctx.tick with
            | error e =>
              exact ExecSpec.oracleErr ctx
                (fun hwf => hwf.waitForNetworkIdle _ _ hc)
            | ok u => exact ExecSpec.okLog (execStep_bump ctx) _ _ _
          · rw [if_neg h4]
            exact ExecSpec.okLog (ExecStep.erefl ctx) _ _ _
  all_goals exact ExecSpec.lit env ctx (by decide)

/-- `lookupText` bumps the clock and otherwise leaves the context alone; its
failure message comes from the element lookup or the text read. -/
theorem lookupText_spec (env : Env) (selector : String)
    (ctx : ExecutionContext) :
    ExecStep ctx (lookupText env selector ctx).1 ∧
    ((lookupText env selector ctx).1.data = ctx.data) ∧
    (∀ e, (lookupText env selector ctx).2 = .error e → EnvWF env → e ≠ "") := by
  unfold lookupText
  cases hc : env.findElement ctx.tick selector with
  | error e =>
    exact ⟨execStep_bump ctx, rfl, fun e' he' hwf => by
      injection he' with h'; subst h'; exact hwf.findElement _ _ _ hc⟩
  | ok element =>
    dsimp only
    cases hc2 : env.elementText ctx.bump.tick element with
    | error e =>
      exact ⟨(execStep_bump ctx).etrans (execStep_bump ctx.bump), rfl,
        fun e' he' hwf => by
          injection he' with h'; subst h'; exact hwf.elementText _ _ _ hc2⟩
    | ok t =>
      exact ⟨(execStep_bump ctx).etrans (execStep_bump ctx.bump), rfl,
        fun e' he' => by cases he'⟩

theorem execSpec_extract_text (env : Env) (node : WorkflowNode)
    (ctx : ExecutionContext) :
    ExecSpec env ctx (_execute_extract_text env node ctx) := by
  unfold _execute_extract_text
  cases hs : node.config.spec
  case extract_text selector output_key trim default_value =>
    dsimp only
    by_cases hd : ctx.driver = false
    · rw [if_pos hd]
      exact ExecSpec.lit env ctx (by decide)
    · rw [if_neg hd]
      have hspec := lookupText_spec env selector ctx
      cases hl : lookupText env selector ctx with
      | mk ctx' res =>
        rw [hl] at hspec
        cases res with
        | ok text0 =>
          exact ExecSpec.okLog (hspec.1.etrans (execStep_set_data ctx' _ _)) _ _ _
        | error e =>
          cases default_value with
          | some d =>
            exact ExecSpec.okLog (hspec.1.etrans (execStep_set_data ctx' _ _)) _ _ _
          | none =>
            exact ⟨hspec.1, fun e' he' hwf => by
              injection he' with h'; subst h'
              exact hspec.2.2 _ rfl hwf⟩
  all_goals exact ExecSpec.lit env ctx (by decide)

theorem execStep_extractField (env : Env) (container : Nat)
    (field : ExtractField) (ctx : ExecutionContext) :
    ExecStep ctx (extractField env container field ctx).1 := by
  unfold extractField
  cases hc : env.elementFindElement ctx.tick container field.selector with
  | error e => exact execStep_bump ctx
  | ok sub =>
    dsimp only
    cases hattr : field.attr with
    | some a =>
      dsimp only
      cases hc2 : env.elementGetAttribute ctx.bump.tick sub a <;>
        exact (execStep_bump ctx).etrans (execStep_bump ctx.bump)
    | none =>
      dsimp only
      cases hc2 : env.elementText ctx.bump.tick sub <;>
        exact (execStep_bump ctx).etrans (execStep_bump ctx.bump)

theorem execStep_extractFields (env : Env) (container : Nat) :
    ∀ (fields : List ExtractField) (ctx : ExecutionContext),
      ExecStep ctx (extractFields env container fields ctx).1 := by
  intro fields
  induction fields with
  | nil => intro ctx; exact ExecStep.erefl ctx
  | cons f rest ih =>
    intro ctx
    unfold extractFields
    cases hf : extractField env container f ctx with
    | mk ctx1 v =>
      have h1 := execStep_extractField env container f ctx
      rw [hf] at h1
      dsimp only
      cases hr : extractFields env container rest ctx1 with
      | mk ctx2 tail =>
        have h2 := ih ctx1
        rw [hr] at h2
        exact h1.etrans h2

theorem execStep_extractContainers (env : Env) (fields : List ExtractField)
    (limit : Option Int) :
    ∀ (cs : List Nat) (i : Nat) (ctx : ExecutionContext),
      ExecStep ctx (extractContainers env fields limit cs i ctx).1 := by
  intro cs
  induction cs with
  | nil => intro i ctx; exact ExecStep.erefl ctx
  | cons c rest ih =>
    intro i ctx
    unfold extractContainers
    by_cases hl : limitReached limit i = true
    · rw [if_pos hl]; exact ExecStep.erefl ctx
    · rw [if_neg hl]
      cases hf : extractFields env c fields ctx with
      | mk ctx1 item =>
        have h1 := execStep_extractFields env c fields ctx
        rw [hf] at h1
        dsimp only
        cases hr : extractContainers env fields limit rest (i + 1) ctx1 with
        | mk ctx2 tail =>
          have h2 := ih (i + 1) ctx1
          rw [hr] at h2
          exact h1.etrans h2

theorem execSpec_extract_multiple (env : Env) (node : WorkflowNode)
    (ctx : ExecutionContext) :
    ExecSpec env ctx (_execute_extract_multiple env node ctx) := by
  unfold _execute_extract_multiple
  cases hs : node.config.spec
  case extract_multiple container_selector fields output_key limit =>
    dsimp only
    by_cases hd : ctx.driver = false
    · rw [if_pos hd]
      exact ExecSpec.lit env ctx (by decide)
    · rw [if_neg hd]
      cases hc : env.findElements ctx.tick container_selector with
      | error e =>
        exact ExecSpec.oracleErr ctx (fun hwf => hwf.findElements _ _ _ hc)
      | ok containers =>
        dsimp only
        cases he : extractContainers env fields limit containers 0 ctx.bump with
        | mk ctx1 results =>
          have h1 := execStep_extractContainers env fields limit containers 0
            ctx.bump
          rw [he] at h1
          exact ExecSpec.okLog (((execStep_bump ctx).etrans h1).etrans
            (execStep_set_data ctx1 _ _)) _ _ _
  all_goals exact ExecSpec.lit env ctx (by decide)

theorem execSpec_transform (env : Env) (node : WorkflowNode)
    (ctx : ExecutionContext) :
    ExecSpec env ctx (_execute_transform env node ctx) := by
  unfold _execute_transform
  cases hs : node.config.spec
  case transform expression input_key output_key =>
    dsimp only
    cases hc : env.evalExpr expression
        (transformNamespace (ctx.get_data input_key .null) ctx.data) with
    | error e =>
      exact ⟨ExecStep.erefl ctx, fun e' he' hwf => by
        injection he' with h'; subst h'; exact hwf.evalExpr _ _ _ hc⟩
    | ok result =>
      exact ExecSpec.okLog (execStep_set_data ctx _ _) _ _ _
  all_goals exact ExecSpec.lit env ctx (by decide)

theorem execSpec_condition (env : Env) (node : WorkflowNode)
    (ctx : ExecutionContext) :
    ExecSpec env ctx (_execute_condition node ctx) :=
  ExecSpec.okLog (ExecStep.erefl ctx) _ _ _

theorem execStep_loopIterate (node : WorkflowNode) (loop_variable : String)
    (total : Nat) :
    ∀ (xs : List Value) (i : Nat) (ctx : ExecutionContext),
      ExecStep ctx (loopIterate node loop_variable total xs i ctx) := by
  intro xs
  induction xs with
  | nil => intro i ctx; exact ExecStep.erefl ctx
  | cons item rest ih =>
    intro i ctx
    unfold loopIterate
    exact ((execStep_set_data ctx _ _).etrans
      (execStep_log_success _ _ _ _)).etrans (ih (i + 1) _)

theorem execSpec_loop (env : Env) (node : WorkflowNode)
    (ctx : ExecutionContext) :
    ExecSpec env ctx (_execute_loop node ctx) := by
  unfold _execute_loop
  cases hs : node.config.spec
  case loop input_key loop_variable max_iterations =>
    dsimp only
    cases hv : ctx.get_data input_key (.list []) with
    | list xs =>
      dsimp only
      exact ⟨(execStep_log_success ctx _ _ _).etrans
        (execStep_loopIterate node loop_variable _ _ 0 _), msgOK_none⟩
    | null => exact ExecSpec.lit env ctx (by decide)
    | bool b => exact ExecSpec.lit env ctx (by decide)
    | int n => exact ExecSpec.lit env ctx (by decide)
    | str s => exact ExecSpec.lit env ctx (by decide)
    | dict d => exact ExecSpec.lit env ctx (by decide)
  all_goals exact ExecSpec.lit env ctx (by decide)

theorem execSpec_save_json (env : Env) (node : WorkflowNode)
    (ctx : ExecutionContext) :
    ExecSpec env ctx (_execute_save_json env node ctx) := by
  unfold _execute_save_json
  cases hs : node.config.spec
  case save_json file_path data_key =>
    dsimp only
    cases file_path with
    | some p =>
      dsimp only
      by_cases hp : p = ""
      · rw [if_pos hp]
        exact ExecSpec.okLog (execStep_set_data ctx _ _) _ _ _
      · rw [if_neg hp]
        cases hc : env.writeFile ctx.tick p (saveJsonPayload data_key ctx.data) with
        | error e =>
          exact ExecSpec.oracleErr ctx (fun hwf => hwf.writeFile _ _ _ _ hc)
        | ok u =>
          exact ExecSpec.okLog ((execStep_bump ctx).etrans
            (execStep_set_data ctx.bump _ _)) _ _ _
    | none =>
      exact ExecSpec.okLog (execStep_set_data ctx _ _) _ _ _
  all_goals exact ExecSpec.lit env ctx (by decide)

theorem execSpec_api_call (env : Env) (node : WorkflowNode)
    (ctx : ExecutionContext) :
    ExecSpec env ctx (_execute_api_call env node ctx) := by
  unfold _execute_api_call
  cases hs : node.config.spec
  case api_call url method headers body output_key =>
    dsimp only
    cases hc : env.httpJson ctx.tick method url headers body with
    | error e =>
      exact ExecSpec.oracleErr ctx (fun hwf => hwf.httpJson _ _ _ _ _ _ hc)
    | ok result =>
      exact ExecSpec.okLog ((execStep_bump ctx).etrans
        (execStep_set_data ctx.bump _ _)) _ _ _
  all_goals exact ExecSpec.lit env ctx (by decide)

theorem execSpec_aiExtractCallPhase (env : Env) (node : WorkflowNode)
    (prompt output_key : String) (use_vision : Bool) (html : String)
    (ctx : ExecutionContext) :
    ExecSpec env ctx
      (aiExtractCallPhase env node prompt output_key use_vision html ctx) := by
  unfold aiExtractCallPhase
  by_cases hv : (use_vision && ctx.driver) = true
  · rw [if_pos hv]
    cases hc : env.screenshotB ctx.tick with
    | error e =>
      exact ExecSpec.oracleErr ctx (fun hwf => hwf.screenshotB _ _ hc)
    | ok shot =>
      dsimp only
      cases hc2 : env.aiExtractData ctx.bump.tick prompt html
          (if use_vision = true then some shot else none) with
      | error e =>
        exact ⟨(execStep_bump ctx).etrans (execStep_bump ctx.bump),
          fun e' he' hwf => by
            injection he' with h'; subst h'
            exact hwf.aiExtractData _ _ _ _ _ hc2⟩
      | ok result =>
        exact ExecSpec.okLog (((execStep_bump ctx).etrans
          (execStep_bump ctx.bump)).etrans
          (execStep_set_data ctx.bump.bump _ _)) _ _ _
  · rw [if_neg hv]
    cases hc : env.aiExtractData ctx.tick prompt html none with
    | error e =>
      exact ExecSpec.oracleErr ctx (fun hwf => hwf.aiExtractData _ _ _ _ _ hc)
    | ok result =>
      exact ExecSpec.okLog ((execStep_bump ctx).etrans
        (execStep_set_data ctx.bump _ _)) _ _ _

theorem execSpec_ai_extract (env : Env) (node : WorkflowNode)
    (ctx : ExecutionContext) :
    ExecSpec env ctx (_execute_ai_extract env node ctx) := by
  unfold _execute_ai_extract
  cases hs : node.config.spec
  case ai_extract prompt selector output_key use_vision =>
    dsimp only
    by_cases ha : env.hasAiService = false
    · rw [if_pos ha]
      exact ExecSpec.lit env ctx (by decide)
    · rw [if_neg ha]
      by_cases hsel : ((selector.getD "" != "") && ctx.driver) = true
      · rw [if_pos hsel]
        cases hc : env.findElement ctx.tick (selector.getD "") with
        | error e =>
          exact ExecSpec.oracleErr ctx (fun hwf => hwf.findElement _ _ _ hc)
        | ok element =>
          dsimp only
          cases hc2 : env.elementHtml ctx.bump.tick element with
          | error e =>
            exact ⟨(execStep_bump ctx).etrans (execStep_bump ctx.bump),
              fun e' he' hwf => by
                injection he' with h'; subst h'
                exact hwf.elementHtml _ _ _ hc2⟩
          | ok html =>
            exact ⟨((execStep_bump ctx).etrans (execStep_bump ctx.bump)).etrans
                (execSpec_aiExtractCallPhase env node prompt output_key
                  use_vision html ctx.bump.bump).1,
              (execSpec_aiExtractCallPhase env node prompt output_key
                use_vision html ctx.bump.bump).2⟩
      · rw [if_neg hsel]
        by_cases hd : ctx.driver = true
        · rw [if_pos hd]
          cases hc : env.pageSource ctx.tick with
          | error e =>
            exact ExecSpec.oracleErr ctx (fun hwf => hwf.pageSource _ _ hc)
          | ok html =>
            exact ⟨(execStep_bump ctx).etrans
                (execSpec_aiExtractCallPhase env node prompt output_key
                  use_vision html ctx.bump).1,
              (execSpec_aiExtractCallPhase env node prompt output_key
                use_vision html ctx.bump).2⟩
        · rw [if_neg hd]
          exact ExecSpec.lit env ctx (by decide)
  all_goals exact ExecSpec.lit env ctx (by decide)

theorem toStr_ne_empty (t : NodeType) : "Unknown node type: " ++ t.toStr ≠ "" := by
  cases t <;> decide

/-- `runExecutor` obeys the executor-body contract relative to the context
with this invocation's ghost record appended. -/
theorem runExecutor_spec (env : Env) (node : WorkflowNode)
    (ctx : ExecutionContext) :
    ExecSpec env { ctx with ghost_execs := ctx.ghost_execs ++ [node.id] }
      (runExecutor env node ctx) := by
  unfold runExecutor
  cases node.config.type
  case START => exact execSpec_start env node _
  case END => exact execSpec_end env node _
  case NAVIGATE => exact execSpec_navigate env node _
  case CLICK => exact execSpec_click env node _
  case TYPE_TEXT => exact execSpec_type_text env node _
  case WAIT => exact execSpec_wait env node _
  case EXTRACT_TEXT => exact execSpec_extract_text env node _
  case EXTRACT_MULTIPLE => exact execSpec_extract_multiple env node _
  case TRANSFORM => exact execSpec_transform env node _
  case CONDITION => exact execSpec_condition env node _
  case LOOP => exact execSpec_loop env node _
  case SAVE_JSON => exact execSpec_save_json env node _
  case API_CALL => exact execSpec_api_call env node _
  case AI_EXTRACT => exact execSpec_ai_extract env node _
  all_goals exact ExecSpec.lit env _ (toStr_ne_empty _)

/-- `runExecutor_spec` restated relative to the original context. -/
theorem runExecutor_facts (env : Env) (node : WorkflowNode)
    (ctx : ExecutionContext) :
    (runExecutor env node ctx).1.status = ctx.status ∧
    (runExecutor env node ctx).1.driver = ctx.driver ∧
    (runExecutor env node ctx).1.error = ctx.error ∧
    (runExecutor env node ctx).1.ghost_sleeps = ctx.ghost_sleeps ∧
    (runExecutor env node ctx).1.ghost_execs = ctx.ghost_execs ++ [node.id] ∧
    (∃ t, (runExecutor env node ctx).1.logs = ctx.logs ++ t ∧
      ∀ x ∈ t, x.status = "success") ∧
    msgOK env (runExecutor env node ctx).2 := by
  obtain ⟨hstep, hmsg⟩ := runExecutor_spec env node ctx
  obtain ⟨t, ht, hs⟩ := hstep.logs
  exact ⟨hstep.status, hstep.driver, hstep.error, hstep.sleeps, hstep.execs,
    ⟨t, ht, hs⟩, hmsg⟩

/-- The walker's per-visit success entry. -/
def successEntry (node : WorkflowNode) : ExecutionLogEntry :=
  { node_id := node.id, node_type := node.config.type, status := "success",
    message := some "Executed successfully" }

/-- Number of `error`-status entries in a log segment. -/
def errCount (t : List ExecutionLogEntry) : Nat :=
  t.countP (fun l => l.status == "error")

theorem errCount_success_only {t : List ExecutionLogEntry}
    (h : ∀ x ∈ t, x.status = "success") : errCount t = 0 := by
  unfold errCount
  rw [List.countP_eq_zero]
  intro x hx
  simp [h x hx]

theorem errCount_append (a b : List ExecutionLogEntry) :
    errCount (a ++ b) = errCount a + errCount b := by
  unfold errCount; exact List.countP_append _ _ _

/-- The log entry of an absorbed intermediate retry failure. -/
def retryEntry (node : WorkflowNode) (attempt : Nat) (e : String) :
    ExecutionLogEntry :=
  { node_id := node.id, node_type := node.config.type, status := "error",
    message := some (retryMsg attempt e) }

/-- What one pass of the retry loop guarantees, `k` being the number of
executor invocations it performed. -/
structure RetrySpec (env : Env) (node : WorkflowNode) (remaining : Nat)
    (ctx : ExecutionContext) (r : ExecResult) (k : Nat) : Prop where
  le : k ≤ remaining
  pos : 1 ≤ remaining → 1 ≤ k
  status : r.1.status = ctx.status
  driver : r.1.driver = ctx.driver
  error : r.1.error = ctx.error
  execs : r.1.ghost_execs = ctx.ghost_execs ++ List.replicate k node.id
  sleeps : r.1.ghost_sleeps =
    ctx.ghost_sleeps ++ List.replicate (k - 1) node.config.retry_delay
  logs : ∃ t, r.1.logs = ctx.logs ++ t ∧ errCount t = k - 1
  msg : msgOK env r.2
  final : ∀ e, r.2 = some e → k = remaining
  succTail : r.2 = none → 1 ≤ remaining →
    ∃ t, r.1.logs = ctx.logs ++ t ++ [successEntry node]

theorem errCount_retryEntry_cons (node : WorkflowNode) (attempt : Nat)
    (e : String) (t : List ExecutionLogEntry) :
    errCount (retryEntry node attempt e :: t) = 1 + errCount t := by
  simp [errCount, retryEntry, List.countP_cons]
  omega

theorem runRetries_spec (env : Env) (node : WorkflowNode) :
    ∀ (remaining attempt : Nat) (ctx : ExecutionContext),
      ∃ k, RetrySpec env node remaining ctx
        (runRetries env node remaining attempt ctx) k := by
  intro remaining
  induction remaining with
  | zero =>
    intro attempt ctx
    refine ⟨0, Nat.le_refl 0, fun h => h, rfl, rfl, rfl, ?_, ?_, ?_,
      msgOK_none, ?_, ?_⟩
    · simp [runRetries]
    · simp [runRetries]
    · exact ⟨[], by simp [runRetries], rfl⟩
    · intro e he; simp [runRetries] at he
    · intro _ h; exact absurd h (by omega)
  | succ remaining ih =>
    intro attempt ctx
    obtain ⟨hst, hdr, herr, hsl, hex, ⟨t0, ht0, hsucc0⟩, hmsg⟩ :=
      runExecutor_facts env node ctx
    unfold runRetries
    cases hr : runExecutor env node ctx with
    | mk ctx' res =>
      rw [hr] at hst hdr herr hsl hex ht0 hmsg
      cases res with
      | none =>
        dsimp only at hst hdr herr hsl hex ht0 ⊢
        refine ⟨1, by omega, fun _ => Nat.le_refl 1,
          by simp [hst], by simp [hdr], by simp [herr],
          by simp [hex, List.replicate_one],
          by simp [hsl],
          ⟨t0 ++ [successEntry node], by simp [ht0, successEntry], ?_⟩,
          msgOK_none, (fun e he => nomatch he), ?_⟩
        · rw [errCount_append, errCount_success_only hsucc0]
          simp [errCount, successEntry]
        · intro _ _
          exact ⟨t0, by simp [ht0, successEntry]⟩
      | some e =>
        dsimp only at hst hdr herr hsl hex ht0 hmsg ⊢
        by_cases hrem : remaining = 0
        · subst hrem
          rw [if_pos rfl]
          refine ⟨1, Nat.le_refl 1, fun _ => Nat.le_refl 1, hst, hdr, herr,
            by simp [hex, List.replicate_one], by simp [hsl],
            ⟨t0, ht0, by rw [errCount_success_only hsucc0]⟩,
            hmsg, fun _ _ => rfl, (fun h => nomatch h)⟩
        · rw [if_neg hrem]
          obtain ⟨k', ihs⟩ := ih (attempt + 1)
            (retrySleep node (ctx'.log node.id node.config.type "error"
              (some (retryMsg attempt e))))
          have hk1 : 1 ≤ k' := ihs.pos (by omega)
          have hle : k' ≤ remaining := ihs.le
          obtain ⟨t', ht', herr'⟩ := ihs.logs
          have hlogrw : (retrySleep node (ctx'.log node.id node.config.type
              "error" (some (retryMsg attempt e)))).logs =
              ctx.logs ++ t0 ++ [retryEntry node attempt e] := by
            simp [ht0, retryEntry]
          refine ⟨k' + 1, by omega, fun _ => by omega, ?_, ?_, ?_, ?_, ?_,
            ?_, ihs.msg, ?_, ?_⟩
          · rw [ihs.status]; simpa using hst
          · rw [ihs.driver]; simpa using hdr
          · rw [ihs.error]; simpa using herr
          · rw [ihs.execs]
            simp only [retrySleep_ghost_execs, log_ghost_execs]
            rw [hex, List.append_assoc]
            simp [List.replicate_succ]
          · rw [ihs.sleeps]
            simp only [retrySleep_ghost_sleeps, log_ghost_sleeps]
            rw [hsl, List.append_assoc]
            have hrep : node.config.retry_delay ::
                List.replicate (k' - 1) node.config.retry_delay =
                List.replicate k' node.config.retry_delay := by
              rw [← List.replicate_succ]
              congr 1
              omega
            simp only [Nat.add_sub_cancel, List.singleton_append, hrep]
          · refine ⟨t0 ++ (retryEntry node attempt e :: t'), ?_, ?_⟩
            · rw [ht', hlogrw]
              simp [List.append_assoc]
            · rw [errCount_append, errCount_success_only hsucc0,
                errCount_retryEntry_cons, herr']
              omega
          · intro e' he'
            have := ihs.final e' he'
            omega
          · intro hnone _
            obtain ⟨t'', ht''⟩ := ihs.succTail hnone (by omega)
            refine ⟨t0 ++ (retryEntry node attempt e :: t''), ?_⟩
            rw [ht'', hlogrw]
            simp [List.append_assoc]

/-- What any walker-level step guarantees: status, driver and error are
untouched and the log only grows. -/
structure WalkStep (a b : ExecutionContext) : Prop where
  status : b.status = a.status
  driver : b.driver = a.driver
  error : b.error = a.error
  logs : ∃ t, b.logs = a.logs ++ t

theorem WalkStep.wrefl (a : ExecutionContext) : WalkStep a a :=
  ⟨by rfl, by rfl, by rfl, ⟨[], by simp⟩⟩

theorem WalkStep.wtrans {a b c : ExecutionContext} (h1 : WalkStep a b)
    (h2 : WalkStep b c) : WalkStep a c := by
  obtain ⟨t1, ht1⟩ := h1.logs
  obtain ⟨t2, ht2⟩ := h2.logs
  exact ⟨h2.status.trans h1.status, h2.driver.trans h1.driver,
    h2.error.trans h1.error, ⟨t1 ++ t2, by rw [ht2, ht1, List.append_assoc]⟩⟩

theorem walkStep_log (a : ExecutionContext) (i : String) (ty : NodeType)
    (st : String) (m : Option String) : WalkStep a (a.log i ty st m) :=
  ⟨by simp, by simp, by simp,
    ⟨[{ node_id := i, node_type := ty, status := st, message := m }],
      by simp⟩⟩

/-- The retry loop is a walker-level step with a non-empty failure message. -/
theorem runRetries_walk (env : Env) (node : WorkflowNode)
    (remaining attempt : Nat) (ctx : ExecutionContext) :
    WalkStep ctx (runRetries env node remaining attempt ctx).1 ∧
    msgOK env (runRetries env node remaining attempt ctx).2 := by
  obtain ⟨k, hs⟩ := runRetries_spec env node remaining attempt ctx
  obtain ⟨t, ht, _⟩ := hs.logs
  exact ⟨⟨hs.status, hs.driver, hs.error, ⟨t, ht⟩⟩, hs.msg⟩

/-- `_evaluate_condition` only (possibly) appends a log entry: the data map,
status, driver and error are untouched, and it never raises. -/
theorem evaluate_condition_walk (env : Env) (cond : String)
    (ctx : ExecutionContext) :
    WalkStep ctx (_evaluate_condition env cond ctx).2 ∧
    (_evaluate_condition env cond ctx).2.data = ctx.data := by
  unfold _evaluate_condition
  cases env.evalExpr cond (condNamespace ctx.data) with
  | ok v => exact ⟨WalkStep.wrefl ctx, rfl⟩
  | error e => exact ⟨walkStep_log ctx _ _ _ _, by simp⟩

/-- The declarative edge predicate: an edge is taken when it carries no
(truthy) condition, or when the sandbox evaluates its condition to a truthy
value without raising. -/
def edgeTaken (env : Env) (conn : NodeConnection)
    (data : List (String × Value)) : Bool :=
  match conn.condition with
  | none => true
  | some c =>
    if c = "" then true
    else
      match env.evalExpr c (condNamespace data) with
      | .ok v => truthy v
      | .error _ => false

theorem gatherNext_walk (env : Env) (wf : WorkflowDefinition) :
    ∀ (conns : List NodeConnection) (ctx : ExecutionContext),
      WalkStep ctx (gatherNext env wf conns ctx).2 ∧
      (gatherNext env wf conns ctx).2.data = ctx.data := by
  intro conns
  induction conns with
  | nil => intro ctx; exact ⟨WalkStep.wrefl ctx, rfl⟩
  | cons conn rest ih =>
    intro ctx
    unfold gatherNext
    cases hcond : conn.condition with
    | none =>
      dsimp only
      cases hg : gatherNext env wf rest ctx with
      | mk tail ctx' =>
        have h := ih ctx
        rw [hg] at h
        cases wf.nodes.find? (fun n => n.id == conn.target_node_id) <;>
          exact h
    | some c =>
      dsimp only
      by_cases hc : c = ""
      · rw [if_pos hc]
        cases hg : gatherNext env wf rest ctx with
        | mk tail ctx' =>
          have h := ih ctx
          rw [hg] at h
          cases wf.nodes.find? (fun n => n.id == conn.target_node_id) <;>
            exact h
      · rw [if_neg hc]
        have hev := evaluate_condition_walk env c ctx
        cases he : _evaluate_condition env c ctx with
        | mk b ctx1 =>
          rw [he] at hev
          by_cases hb : b = true
          · rw [if_pos hb]
            cases hg : gatherNext env wf rest ctx1 with
            | mk tail ctx2 =>
              have h := ih ctx1
              rw [hg] at h
              have hcomp : WalkStep ctx ctx2 := hev.1.wtrans h.1
              have hdata : ctx2.data = ctx.data := h.2.trans hev.2
              cases wf.nodes.find? (fun n => n.id == conn.target_node_id) <;>
                exact ⟨hcomp, hdata⟩
          · rw [if_neg hb]
            have h := ih ctx1
            exact ⟨hev.1.wtrans h.1, h.2.trans hev.2⟩

/-- The list of next nodes is the declarative filter of the outgoing
connections by `edgeTaken`, resolved through first-match node lookup. -/
theorem gatherNext_nodes (env : Env) (wf : WorkflowDefinition) :
    ∀ (conns : List NodeConnection) (ctx : ExecutionContext),
      (gatherNext env wf conns ctx).1 =
        (conns.filter (fun c => edgeTaken env c ctx.data)).filterMap
          (fun c => wf.nodes.find? (fun n => n.id == c.target_node_id)) := by
  intro conns
  induction conns with
  | nil => intro ctx; simp [gatherNext]
  | cons conn rest ih =>
    intro ctx
    unfold gatherNext
    cases hcond : conn.condition with
    | none =>
      have htaken : edgeTaken env conn ctx.data = true := by
        simp [edgeTaken, hcond]
      dsimp only
      cases hg : gatherNext env wf rest ctx with
      | mk tail ctx' =>
        have h := ih ctx
        rw [hg] at h
        dsimp only at h
        cases hf : wf.nodes.find? (fun n => n.id == conn.target_node_id) <;>
          simp [List.filter_cons, htaken, List.filterMap_cons, hf, h]
    | some c =>
      dsimp only
      by_cases hc : c = ""
      · have htaken : edgeTaken env conn ctx.data = true := by
          simp [edgeTaken, hcond, hc]
        rw [if_pos hc]
        cases hg : gatherNext env wf rest ctx with
        | mk tail ctx' =>
          have h := ih ctx
          rw [hg] at h
          dsimp only at h
          cases hf : wf.nodes.find? (fun n => n.id == conn.target_node_id) <;>
            simp [List.filter_cons, htaken, List.filterMap_cons, hf, h]
      · rw [if_neg hc]
        have hev := evaluate_condition_walk env c ctx
        have hbval : (_evaluate_condition env c ctx).1 =
            edgeTaken env conn ctx.data := by
          unfold _evaluate_condition edgeTaken
          rw [hcond]
          dsimp only
          rw [if_neg hc]
          cases env.evalExpr c (condNamespace ctx.data) <;> rfl
        cases he : _evaluate_condition env c ctx with
        | mk b ctx1 =>
          rw [he] at hev hbval
          dsimp only at hbval
          by_cases hb : b = true
          · rw [if_pos hb]
            have htaken : edgeTaken env conn ctx.data = true := by
              rw [← hbval, hb]
            cases hg : gatherNext env wf rest ctx1 with
            | mk tail ctx2 =>
              have h := ih ctx1
              rw [hg] at h
              dsimp only at h
              rw [hev.2] at h
              cases hf : wf.nodes.find? (fun n => n.id == conn.target_node_id) <;>
                simp [List.filter_cons, htaken, List.filterMap_cons, hf, h]
          · rw [if_neg hb]
            have htaken : edgeTaken env conn ctx.data = false := by
              rw [← hbval]
              simpa using hb
            have h := ih ctx1
            rw [hev.2] at h
            rw [h]
            simp [List.filter_cons, htaken]

/-- `_get_next_nodes` is a walker-level step preserving the data map. -/
theorem get_next_nodes_walk (env : Env) (node : WorkflowNode)
    (wf : WorkflowDefinition) (ctx : ExecutionContext) :
    WalkStep ctx (_get_next_nodes env node wf ctx).2 ∧
    (_get_next_nodes env node wf ctx).2.data = ctx.data :=
  gatherNext_walk env wf _ ctx

theorem execChildrenWith_walk {env : Env}
    (f : WorkflowNode → ExecutionContext → ExecResult)
    (hf : ∀ n c, WalkStep c (f n c).1 ∧ msgOK env (f n c).2) :
    ∀ (l : List WorkflowNode) (ctx : ExecutionContext),
      WalkStep ctx (execChildrenWith f l ctx).1 ∧
      msgOK env (execChildrenWith f l ctx).2 := by
  intro l
  induction l with
  | nil => intro ctx; exact ⟨WalkStep.wrefl ctx, msgOK_none⟩
  | cons n rest ih =>
    intro ctx
    unfold execChildrenWith
    cases hc : f n ctx with
    | mk ctx' res =>
      have h := hf n ctx
      rw [hc] at h
      cases res with
      | none =>
        have h2 := ih ctx'
        exact ⟨h.1.wtrans h2.1, h2.2⟩
      | some e => exact h

/-- `_execute_from_node` is a walker-level step with non-empty failure
messages (in a non-raising world). -/
theorem from_node_walk (env : Env) (wf : WorkflowDefinition) :
    ∀ (fuel : Nat) (node : WorkflowNode) (ctx : ExecutionContext),
      WalkStep ctx (_execute_from_node env wf fuel node ctx).1 ∧
      msgOK env (_execute_from_node env wf fuel node ctx).2 := by
  intro fuel
  induction fuel with
  | zero =>
    intro node ctx
    exact ⟨WalkStep.wrefl ctx, msgOK_lit (by decide)⟩
  | succ fuel ih =>
    intro node ctx
    unfold _execute_from_node
    by_cases hen : node.config.enabled = false
    · rw [if_pos hen]
      exact ⟨walkStep_log ctx _ _ _ _, msgOK_none⟩
    · rw [if_neg hen]
      by_cases hreg : hasExecutor node.config.type = false
      · rw [if_pos hreg]
        exact ⟨walkStep_log ctx _ _ _ _, msgOK_lit (toStr_ne_empty _)⟩
      · rw [if_neg hreg]
        have hret := runRetries_walk env node
          (node.config.retry_count + 1).toNat 0 ctx
        cases hA : runRetries env node (node.config.retry_count + 1).toNat
            0 ctx with
        | mk ctx1 res1 =>
          rw [hA] at hret
          cases res1 with
          | some e =>
            exact ⟨hret.1.wtrans (walkStep_log ctx1 _ _ _ _), hret.2⟩
          | none =>
            dsimp only
            have hnx := get_next_nodes_walk env node wf ctx1
            have hch := execChildrenWith_walk
              (_execute_from_node env wf fuel) ih
              (_get_next_nodes env node wf ctx1).1
              (_get_next_nodes env node wf ctx1).2
            cases hB : execChildrenWith (_execute_from_node env wf fuel)
                (_get_next_nodes env node wf ctx1).1
                (_get_next_nodes env node wf ctx1).2 with
            | mk ctx3 res3 =>
              rw [hB] at hch
              cases res3 with
              | none => exact ⟨(hret.1.wtrans hnx.1).wtrans hch.1, msgOK_none⟩
              | some e =>
                exact ⟨((hret.1.wtrans hnx.1).wtrans hch.1).wtrans
                  (walkStep_log ctx3 _ _ _ _), hch.2⟩

/-! ## Claim theorems -/

/-- C1: for every edge carrying a condition string, the walker enters the
edge's target iff the sandbox evaluates the condition — against the namespace
binding `data` and each top-level key of the map — to a truthy value without
raising: (1) the computed next-node list is exactly the declarative
`edgeTaken` filter of the node's outgoing connections; (2) a successful
evaluation returns its truthiness and changes nothing; (3) an evaluation
error is converted to `False`, with exactly one log entry appended, and the
(total) evaluator never lets the exception escape to abort the run. -/
theorem C1_condition_edges (env : Env) (node : WorkflowNode)
    (wf : WorkflowDefinition) (ctx : ExecutionContext) :
    ((_get_next_nodes env node wf ctx).1 =
      ((wf.connections.filter (fun c => c.source_node_id == node.id)).filter
        (fun c => edgeTaken env c ctx.data)).filterMap
        (fun c => wf.nodes.find? (fun n => n.id == c.target_node_id)))
    ∧ (∀ c v, env.evalExpr c (condNamespace ctx.data) = .ok v →
        _evaluate_condition env c ctx = (truthy v, ctx))
    ∧ (∀ c err, env.evalExpr c (condNamespace ctx.data) = .error err →
        _evaluate_condition env c ctx =
          (false, ctx.log "condition" NodeType.CONDITION "error"
            (some ("Condition evaluation failed: " ++ err)))) := by
  refine ⟨gatherNext_nodes env wf _ ctx, ?_, ?_⟩
  · intro c v h
    unfold _evaluate_condition
    rw [h]
  · intro c err h
    unfold _evaluate_condition
    rw [h]

theorem C1_condition_edges_witness :
    _evaluate_condition envW "flag" (ExecutionContext.init []) =
      (true, ExecutionContext.init []) :=
  (C1_condition_edges envW (mkNode "S" .START) wfC3
    (ExecutionContext.init [])).2.1 "flag" (Value.bool true) rfl

/-- C3 (amended): a disabled node that the walker reaches logs exactly one
`skipped` entry, performs no data write, and returns success to its caller,
but the walker does NOT enumerate or follow its outgoing edges: the whole
visit is exactly the skip-log, so the branch ends at the disabled node. -/
theorem C3_disabled_skip (env : Env) (wf : WorkflowDefinition) (fuel : Nat)
    (node : WorkflowNode) (ctx : ExecutionContext)
    (h : node.config.enabled = false) :
    _execute_from_node env wf (fuel + 1) node ctx =
      (ctx.log node.id node.config.type "skipped" (some "Node is disabled"),
        none) := by
  unfold _execute_from_node
  rw [if_pos h]

theorem C3_disabled_skip_witness :
    _execute_from_node envW wfC3 5 nodeB (ExecutionContext.init []) =
      ((ExecutionContext.init []).log "B" NodeType.CONDITION "skipped"
        (some "Node is disabled"), none) :=
  C3_disabled_skip envW wfC3 4 nodeB (ExecutionContext.init []) rfl

/-- C3 counterexample: in `wfC3` the disabled node `B` has an outgoing edge
to the END node `E`; the run logs `B` once as `skipped`, but `E` is never
entered (it gets no log entry at all), refuting "its outgoing edges are
still enumerated and followed". -/
theorem C3_counterexample :
    (execute envW wfC3 [] 10).logs.countP
        (fun l => l.node_id == "B" && l.status == "skipped") = 1 ∧
    (execute envW wfC3 [] 10).logs.countP (fun l => l.node_id == "E") = 0 ∧
    wfC3.connections.any
      (fun c => c.source_node_id == "B" && c.target_node_id == "E") = true := by
  refine ⟨?_, ?_, ?_⟩ <;> rfl

/-- C4: during one traversal visit of an (enabled, registered) node, the
executor is invoked `k` times with `1 ≤ k ≤ retry_count + 1`; exactly
`k - 1` retry-delay suspensions of `retry_delay` seconds separate the
consecutive attempts; the `k - 1` intermediate failures are each logged (the
appended segment holds exactly `k - 1` error-status entries) and absorbed;
and a failure escapes the visit's retry loop only on the final attempt
(`k = retry_count + 1`). -/
theorem C4_retry_bound (env : Env) (node : WorkflowNode)
    (ctx : ExecutionContext) (h : 0 ≤ node.config.retry_count) :
    ∃ k, 1 ≤ k ∧ k ≤ (node.config.retry_count + 1).toNat ∧
      (runRetries env node (node.config.retry_count + 1).toNat 0
        ctx).1.ghost_execs = ctx.ghost_execs ++ List.replicate k node.id ∧
      (runRetries env node (node.config.retry_count + 1).toNat 0
        ctx).1.ghost_sleeps = ctx.ghost_sleeps ++
          List.replicate (k - 1) node.config.retry_delay ∧
      (∃ t, (runRetries env node (node.config.retry_count + 1).toNat 0
          ctx).1.logs = ctx.logs ++ t ∧ errCount t = k - 1) ∧
      (∀ e, (runRetries env node (node.config.retry_count + 1).toNat 0
          ctx).2 = some e → k = (node.config.retry_count + 1).toNat) := by
  obtain ⟨k, hs⟩ := runRetries_spec env node
    (node.config.retry_count + 1).toNat 0 ctx
  exact ⟨k, hs.pos (by omega), hs.le, hs.execs, hs.sleeps, hs.logs, hs.final⟩

theorem C4_retry_bound_witness :
    ∃ k, 1 ≤ k ∧ k ≤ (nodeT.config.retry_count + 1).toNat ∧
      (runRetries envFail nodeT (nodeT.config.retry_count + 1).toNat 0
        (ExecutionContext.init [])).1.ghost_execs =
        (ExecutionContext.init []).ghost_execs ++ List.replicate k nodeT.id ∧
      (runRetries envFail nodeT (nodeT.config.retry_count + 1).toNat 0
        (ExecutionContext.init [])).1.ghost_sleeps =
        (ExecutionContext.init []).ghost_sleeps ++
          List.replicate (k - 1) nodeT.config.retry_delay ∧
      (∃ t, (runRetries envFail nodeT (nodeT.config.retry_count + 1).toNat 0
          (ExecutionContext.init [])).1.logs =
          (ExecutionContext.init []).logs ++ t ∧ errCount t = k - 1) ∧
      (∀ e, (runRetries envFail nodeT (nodeT.config.retry_count + 1).toNat 0
          (ExecutionContext.init [])).2 = some e →
          k = (nodeT.config.retry_count + 1).toNat) :=
  C4_retry_bound envFail nodeT (ExecutionContext.init []) (by decide)

/-- C5: for an `extract_text` node whose selector lookup raises: with a
non-null `default_value` the executor succeeds and binds `output_key` to the
default; with no `default_value` the executor re-raises the underlying
exception unchanged (so it becomes a node failure subject to the retry
policy), leaving the context data untouched. -/
theorem C5_extract_text_default (env : Env) (node : WorkflowNode)
    (ctx : ExecutionContext) (selector output_key : String) (trim : Bool)
    (dv : Option Value) (e : String)
    (hspec : node.config.spec = .extract_text selector output_key trim dv)
    (hdrv : ctx.driver = true)
    (hfail : (lookupText env selector ctx).2 = .error e) :
    (∀ d, dv = some d →
      (_execute_extract_text env node ctx).2 = none ∧
      dictGet (_execute_extract_text env node ctx).1.data output_key =
        some d) ∧
    (dv = none →
      _execute_extract_text env node ctx =
        ((lookupText env selector ctx).1, some e)) := by
  unfold _execute_extract_text
  rw [hspec]
  dsimp only
  rw [if_neg (by simp [hdrv])]
  cases hl : lookupText env selector ctx with
  | mk ctx' res =>
    rw [hl] at hfail
    dsimp only at hfail
    subst hfail
    dsimp only
    constructor
    · intro d hd
      subst hd
      dsimp only
      exact ⟨rfl, by simp [dictGet_dictSet_self]⟩
    · intro hn
      subst hn
      rfl

theorem C5_extract_text_default_witness :
    (_execute_extract_text envNoElem (nodeXT (some (Value.str "N/A")))
      { ExecutionContext.init [] with driver := true }).2 = none ∧
    dictGet (_execute_extract_text envNoElem (nodeXT (some (Value.str "N/A")))
      { ExecutionContext.init [] with driver := true }).1.data "title" =
      some (Value.str "N/A") :=
  (C5_extract_text_default envNoElem (nodeXT (some (Value.str "N/A")))
    { ExecutionContext.init [] with driver := true } "h1" "title" true
    (some (Value.str "N/A")) "no such element" rfl rfl rfl).1 _ rfl

theorem pySlice_nil (m : Int) : pySlice [] m = [] := by
  unfold pySlice
  split <;> simp

/-- The traversal body never touches the driver handle. -/
theorem executeMain_driver (env : Env) (wf : WorkflowDefinition) (fuel : Nat)
    (ctx : ExecutionContext) :
    (executeMain env wf fuel ctx).driver = ctx.driver := by
  unfold executeMain
  cases hf : wf.nodes.find? (fun n => n.config.type == NodeType.START) with
  | none => simp
  | some s =>
    dsimp only
    have h := from_node_walk env wf fuel s ctx
    cases hr : _execute_from_node env wf fuel s ctx with
    | mk ctx' res =>
      rw [hr] at h
      cases res with
      | none =>
        dsimp only
        by_cases hst : ctx'.status = .RUNNING
        · rw [if_pos hst]
          exact h.1.driver
        · rw [if_neg hst]
          exact h.1.driver
      | some e =>
        simpa using h.1.driver

/-- C6 (amended): a browser driver is opened for a run iff browser
initialization succeeds and the workflow contains a node whose kind is in
the engine's browser subset `navigate`, `click`, `type_text`,
`extract_text`, `extract_multiple`, `screenshot` — the `wait` kind is NOT in
this subset (this is where the claim as stated fails). -/
theorem C6_browser_subset (env : Env) (wf : WorkflowDefinition)
    (input : List (String × Value)) (fuel : Nat) :
    ((execute env wf input fuel).driver = true ↔
      (_needs_browser wf = true ∧ env.browserInit = .ok ())) ∧
    (_needs_browser wf = true ↔ ∃ n ∈ wf.nodes,
      n.config.type ∈ [NodeType.NAVIGATE, .CLICK, .TYPE_TEXT, .EXTRACT_TEXT,
        .EXTRACT_MULTIPLE, .SCREENSHOT]) := by
  constructor
  · unfold execute
    by_cases hn : _needs_browser wf = true
    · rw [if_pos hn]
      cases hb : env.browserInit with
      | error e =>
        dsimp only
        constructor
        · intro h
          exact absurd h (by simp [ExecutionContext.init])
        · rintro ⟨-, h⟩
          cases h
      | ok u =>
        rw [executeMain_driver]
        simp [hn, hb]
    · rw [if_neg hn]
      rw [executeMain_driver]
      constructor
      · intro h
        exact absurd h (by simp [ExecutionContext.init])
      · rintro ⟨h, -⟩
        exact absurd h hn
  · unfold _needs_browser
    rw [List.any_eq_true]
    constructor
    · rintro ⟨n, hn, hc⟩
      exact ⟨n, hn, by simpa using hc⟩
    · rintro ⟨n, hn, hc⟩
      exact ⟨n, hn, by simpa using hc⟩

/-- C6 counterexample: `wfWait` contains a `wait` node — a kind the claim
places in the browser subset — yet the run opens no driver. -/
theorem C6_counterexample :
    (execute envW wfWait [] 10).driver = false ∧
    wfWait.nodes.any (fun n => n.config.type == NodeType.WAIT) = true :=
  ⟨rfl, rfl⟩

/-- The context right after a visit's executor phase for a `loop` node whose
input resolved to the empty list: the ghost invocation record, the
executor's own `Looping over 0 items` entry, and the walker's
`Executed successfully` entry. -/
def loopVisitCtx (node : WorkflowNode) (ctx : ExecutionContext) :
    ExecutionContext :=
  ({ ctx with ghost_execs := ctx.ghost_execs ++ [node.id] }.log
    node.id NodeType.LOOP "success" (some "Looping over 0 items")).log
    node.id node.config.type "success" (some "Executed successfully")

/-- C7 (amended): a `loop` node whose `input_key` resolves to the empty list
(or is absent, defaulting to `[]`) performs no iterations; the visit itself
records exactly TWO success entries for the node — the executor's
`Looping over 0 items` and the walker's generic `Executed successfully` —
(not one, which is where the claim as stated fails), writes no data, and
traversal then continues normally into the node's outgoing edges. -/
theorem C7_empty_loop (env : Env) (wf : WorkflowDefinition) (fuel : Nat)
    (node : WorkflowNode) (ctx : ExecutionContext) (ik lv : String)
    (mi : Option Int)
    (hen : node.config.enabled = true)
    (hty : node.config.type = NodeType.LOOP)
    (hrc : 0 ≤ node.config.retry_count)
    (hspec : node.config.spec = .loop ik lv mi)
    (hempty : dictGet ctx.data ik = some (Value.list []) ∨
      dictGet ctx.data ik = none) :
    runRetries env node (node.config.retry_count + 1).toNat 0 ctx =
      (loopVisitCtx node ctx, none) ∧
    ((loopVisitCtx node ctx).logs = ctx.logs ++
      [{ node_id := node.id, node_type := NodeType.LOOP, status := "success",
         message := some "Looping over 0 items" },
       { node_id := node.id, node_type := node.config.type,
         status := "success", message := some "Executed successfully" }] ∧
     (loopVisitCtx node ctx).data = ctx.data) ∧
    (∀ ctx3 res,
      execChildrenWith (_execute_from_node env wf fuel)
        (_get_next_nodes env node wf (loopVisitCtx node ctx)).1
        (_get_next_nodes env node wf (loopVisitCtx node ctx)).2 =
        (ctx3, res) →
      _execute_from_node env wf (fuel + 1) node ctx =
        (match res with
         | none => (ctx3, none)
         | some e => (ctx3.log node.id node.config.type "error"
             (some ("Failed: " ++ e)), some e))) := by
  have hexec : runExecutor env node ctx =
      ({ ctx with ghost_execs := ctx.ghost_execs ++ [node.id] }.log
        node.id NodeType.LOOP "success" (some "Looping over 0 items"),
       none) := by
    unfold runExecutor
    rw [hty]
    dsimp only
    unfold _execute_loop
    rw [hspec]
    dsimp only
    unfold ExecutionContext.get_data
    have hdata : dictGet ({ ctx with
        ghost_execs := ctx.ghost_execs ++ [node.id] } :
        ExecutionContext).data ik = dictGet ctx.data ik := rfl
    rcases hempty with h | h <;>
      · rw [hdata, h]
        dsimp only [Option.getD]
        rw [pySlice_nil]
        rfl
  have hA : runRetries env node (node.config.retry_count + 1).toNat 0 ctx =
      (loopVisitCtx node ctx, none) := by
    obtain ⟨t, ht⟩ : ∃ t, (node.config.retry_count + 1).toNat = t + 1 :=
      ⟨(node.config.retry_count + 1).toNat - 1, by omega⟩
    rw [ht]
    unfold runRetries
    rw [hexec]
    rfl
  refine ⟨hA, ⟨by simp [loopVisitCtx], rfl⟩, ?_⟩
  intro ctx3 res hch
  unfold _execute_from_node
  rw [if_neg (by simp [hen]), if_neg (by rw [hty]; decide), hA]
  dsimp only
  rw [hch]
  cases res <;> rfl

theorem C7_empty_loop_witness :
    (loopVisitCtx nodeL (ExecutionContext.init [])).logs =
      (ExecutionContext.init []).logs ++
        [{ node_id := "L", node_type := NodeType.LOOP, status := "success",
           message := some "Looping over 0 items" },
         { node_id := "L", node_type := NodeType.LOOP, status := "success",
           message := some "Executed successfully" }] ∧
    (loopVisitCtx nodeL (ExecutionContext.init [])).data =
      (ExecutionContext.init []).data :=
  (C7_empty_loop envW wfLoop 5 nodeL (ExecutionContext.init []) "items"
    "item" none rfl rfl (by decide) rfl (Or.inr rfl)).2.1

/-- C7 counterexample: in the run of `wfLoop` (loop over the absent key
`"items"`) the loop node `L` receives TWO success log entries, not exactly
one; traversal does continue (the END node `E` is executed and logged). -/
theorem C7_counterexample :
    (execute envW wfLoop [] 10).logs.countP
        (fun l => l.node_id == "L" && l.status == "success") = 2 ∧
    (execute envW wfLoop [] 10).logs.countP (fun l => l.node_id == "E") = 2 :=
  ⟨rfl, rfl⟩

/-- C8 (amended): for `save_json` with a present (truthy) `data_key`, a
successful execution always binds `output` to the payload selected from the
pre-execution map, and re-running the node selects the same payload again —
so two consecutive executions write the same value and `output` ends up
equal to the value written by the last one.  (When `data_key` is absent the
claim fails: the second whole-map snapshot additionally contains the
`output` key written by the first execution — see the counterexample.) -/
theorem C8_save_json_repeat (env : Env) (node : WorkflowNode)
    (ctx : ExecutionContext) (fp : Option String) (k : String)
    (hspec : node.config.spec = .save_json fp (some k)) (hk : k ≠ "")
    (h1 : (_execute_save_json env node ctx).2 = none) :
    saveJsonPayload (some k) (_execute_save_json env node ctx).1.data =
      saveJsonPayload (some k) ctx.data ∧
    dictGet (_execute_save_json env node ctx).1.data "output" =
      some (saveJsonPayload (some k) ctx.data) := by
  have hpay : ∀ d : List (String × Value),
      saveJsonPayload (some k) (dictSet d "output"
        (saveJsonPayload (some k) d)) = saveJsonPayload (some k) d := by
    intro d
    unfold saveJsonPayload
    dsimp only
    simp only [if_neg hk]
    by_cases hko : k = "output"
    · subst hko
      rw [dictGet_dictSet_self]
      rfl
    · rw [dictGet_dictSet_ne _ _ _ _ (fun h => hko h.symm)]
  unfold _execute_save_json at h1 ⊢
  rw [hspec] at h1 ⊢
  dsimp only at h1 ⊢
  cases fp with
  | none =>
    dsimp only
    exact ⟨hpay ctx.data, by simp [dictGet_dictSet_self]⟩
  | some p =>
    dsimp only at h1 ⊢
    by_cases hp : p = ""
    · rw [if_pos hp] at h1 ⊢
      exact ⟨hpay ctx.data, by simp [dictGet_dictSet_self]⟩
    · rw [if_neg hp] at h1 ⊢
      cases hw : env.writeFile ctx.tick p (saveJsonPayload (some k) ctx.data) with
      | error e =>
        rw [hw] at h1
        cases h1
      | ok u =>
        dsimp only
        exact ⟨hpay ctx.data, by simp [dictGet_dictSet_self]⟩

theorem C8_save_json_repeat_witness :
    saveJsonPayload (some "title")
      (_execute_save_json envW nodeSJK (ExecutionContext.init [])).1.data =
      saveJsonPayload (some "title") (ExecutionContext.init []).data ∧
    dictGet (_execute_save_json envW nodeSJK
        (ExecutionContext.init [])).1.data "output" =
      some (saveJsonPayload (some "title") (ExecutionContext.init []).data) :=
  C8_save_json_repeat envW nodeSJK (ExecutionContext.init []) none "title"
    rfl (by decide) rfl

/-- C8 counterexample: two consecutive `save_json` executions with NO
`data_key` on an initially empty context write different values — the first
writes the empty snapshot, the second writes a snapshot that already
contains the `output` key from the first. -/
theorem C8_counterexample :
    dictGet (_execute_save_json envW nodeSJ (ExecutionContext.init [])).1.data
      "output" = some (Value.dict []) ∧
    dictGet (_execute_save_json envW nodeSJ
        (_execute_save_json envW nodeSJ
          (ExecutionContext.init [])).1).1.data "output" =
      some (Value.dict [("output", Value.dict [])]) ∧
    Value.dict [] ≠ Value.dict [("output", Value.dict [])] := by
  refine ⟨rfl, rfl, ?_⟩
  intro h
  injection h with h'
  exact List.noConfusion h'

/-- C9: when a failure propagates out of a visit whose own retry phase
succeeded (i.e. the exception rose from descending into the node's
successors), the frame's exception handler appends an `error` entry for ITS
OWN node and re-raises unchanged; since the retry phase had already logged
the per-visit success entry, the node appears in the final log with an
earlier `success` entry and a later `error` entry for the same visit.
Applied at every frame of the recursion path, this places an `error` entry
for the failing node and for every ancestor back to the start node. -/
theorem C9_failure_cascade (env : Env) (wf : WorkflowDefinition) (fuel : Nat)
    (node : WorkflowNode) (ctx ctxA ctxC : ExecutionContext) (e : String)
    (hen : node.config.enabled = true)
    (hreg : hasExecutor node.config.type = true)
    (hrc : 0 ≤ node.config.retry_count)
    (hA : runRetries env node (node.config.retry_count + 1).toNat 0 ctx =
      (ctxA, none))
    (hC : execChildrenWith (_execute_from_node env wf fuel)
      (_get_next_nodes env node wf ctxA).1
      (_get_next_nodes env node wf ctxA).2 = (ctxC, some e)) :
    _execute_from_node env wf (fuel + 1) node ctx =
      (ctxC.log node.id node.config.type "error" (some ("Failed: " ++ e)),
        some e) ∧
    ∃ l1 l2, (ctxC.log node.id node.config.type "error"
        (some ("Failed: " ++ e))).logs =
      l1 ++ [successEntry node] ++ l2 ++
        [{ node_id := node.id, node_type := node.config.type,
           status := "error", message := some ("Failed: " ++ e) }] := by
  constructor
  · unfold _execute_from_node
    rw [if_neg (by simp [hen]), if_neg (by simp [hreg]), hA]
    dsimp only
    rw [hC]
  · obtain ⟨k, hs⟩ := runRetries_spec env node
      (node.config.retry_count + 1).toNat 0 ctx
    rw [hA] at hs
    obtain ⟨t, ht⟩ := hs.succTail rfl (by omega)
    dsimp only at ht
    obtain ⟨t1, ht1⟩ := (get_next_nodes_walk env node wf ctxA).1.logs
    have hchW := execChildrenWith_walk (_execute_from_node env wf fuel)
      (from_node_walk env wf fuel)
      (_get_next_nodes env node wf ctxA).1
      (_get_next_nodes env node wf ctxA).2
    rw [hC] at hchW
    obtain ⟨t2, ht2⟩ := hchW.1.logs
    dsimp only at ht2
    refine ⟨ctx.logs ++ t, t1 ++ t2, ?_⟩
    rw [log_logs, ht2, ht1, ht]
    simp [List.append_assoc]

theorem C9_failure_cascade_witness :
    ∃ l1 l2, ((execChildrenWith (_execute_from_node envFail wfT 1)
        (_get_next_nodes envFail (mkNode "S" .START) wfT
          (runRetries envFail (mkNode "S" .START) 1 0
            (ExecutionContext.init [])).1).1
        (_get_next_nodes envFail (mkNode "S" .START) wfT
          (runRetries envFail (mkNode "S" .START) 1 0
            (ExecutionContext.init [])).1).2).1.log "S" NodeType.START
        "error" (some ("Failed: " ++ "boom"))).logs =
      l1 ++ [successEntry (mkNode "S" .START)] ++ l2 ++
        [{ node_id := "S", node_type := NodeType.START, status := "error",
           message := some ("Failed: " ++ "boom") }] :=
  (C9_failure_cascade envFail wfT 1 (mkNode "S" .START)
    (ExecutionContext.init [])
    (runRetries envFail (mkNode "S" .START) 1 0 (ExecutionContext.init [])).1
    (execChildrenWith (_execute_from_node envFail wfT 1)
      (_get_next_nodes envFail (mkNode "S" .START) wfT
        (runRetries envFail (mkNode "S" .START) 1 0
          (ExecutionContext.init [])).1).1
      (_get_next_nodes envFail (mkNode "S" .START) wfT
        (runRetries envFail (mkNode "S" .START) 1 0
          (ExecutionContext.init [])).1).2).1
    "boom" rfl rfl (by decide) rfl rfl).2

theorem browser_msg_ne (e : String) :
    "Failed to initialize browser: " ++ e ≠ "" := by
  intro h
  have hl := congrArg String.length h
  rw [String.length_append] at hl
  have h30 : ("Failed to initialize browser: ").length = 30 := rfl
  have h0 : ("" : String).length = 0 := rfl
  rw [h30, h0] at hl
  omega

/-- All `envW` oracles succeed, so its error messages are vacuously
non-empty. -/
theorem envW_wf : EnvWF envW :=
  ⟨(fun _ _ _ h => nomatch h), (fun _ _ _ h => nomatch h),
    (fun _ _ h => nomatch h), (fun _ _ h => nomatch h),
    (fun _ _ _ h => nomatch h), (fun _ _ h => nomatch h),
    (fun _ _ _ _ h => nomatch h), (fun _ _ _ _ _ h => nomatch h),
    (fun _ _ _ h => nomatch h), (fun _ _ _ h => nomatch h),
    (fun _ _ _ h => nomatch h), (fun _ _ _ h => nomatch h),
    (fun _ _ _ h => nomatch h), (fun _ _ _ _ h => nomatch h),
    (fun _ _ h => nomatch h), (fun _ _ h => nomatch h),
    (fun _ _ _ _ _ _ h => nomatch h), (fun _ _ _ _ _ h => nomatch h),
    (fun _ _ _ _ h => nomatch h)⟩

/-- The status and error guarantees of the traversal body, for a context
that enters it `running`. -/
theorem executeMain_status (env : Env) (wf : WorkflowDefinition) (fuel : Nat)
    (ctx : ExecutionContext) (hr : ctx.status = .RUNNING) (hwf : EnvWF env) :
    ((executeMain env wf fuel ctx).status = .COMPLETED ∨
      (executeMain env wf fuel ctx).status = .FAILED) ∧
    ((executeMain env wf fuel ctx).status = .FAILED →
      ∃ e, (executeMain env wf fuel ctx).error = some e ∧ e ≠ "") := by
  unfold executeMain
  cases hf : wf.nodes.find? (fun n => n.config.type == NodeType.START) with
  | none =>
    dsimp only
    exact ⟨Or.inr rfl, fun _ =>
      ⟨"No START node found in workflow", rfl, by decide⟩⟩
  | some s =>
    dsimp only
    have h := from_node_walk env wf fuel s ctx
    cases hrn : _execute_from_node env wf fuel s ctx with
    | mk ctx' res =>
      rw [hrn] at h
      cases res with
      | none =>
        dsimp only
        have hst : ctx'.status = .RUNNING := by
          have := h.1.status
          dsimp only at this
          rw [this, hr]
        rw [if_pos hst]
        exact ⟨Or.inl rfl, fun hfl => nomatch hfl⟩
      | some e =>
        dsimp only
        exact ⟨Or.inr rfl, fun _ => ⟨e, rfl, h.2 e rfl hwf⟩⟩

/-- C2: `execute` never returns a `running` context: the final status is
`completed` or `failed` (hence within {completed, failed, cancelled}); a
normal traversal exit promotes the still-`running` status to `completed`;
whenever the status is `failed` the error field holds a non-empty message
(given that the external world's exception strings are non-empty); and a
browser-initialization failure marks the run `failed` before any node
executes — no log entries and no executor invocations. -/
theorem C2_terminal_status (env : Env) (wf : WorkflowDefinition)
    (input : List (String × Value)) (fuel : Nat) (hwf : EnvWF env) :
    ((execute env wf input fuel).status = .COMPLETED ∨
      (execute env wf input fuel).status = .FAILED) ∧
    (execute env wf input fuel).status ≠ .RUNNING ∧
    ((execute env wf input fuel).status = .FAILED →
      ∃ e, (execute env wf input fuel).error = some e ∧ e ≠ "") ∧
    (∀ e, _needs_browser wf = true → env.browserInit = .error e →
      (execute env wf input fuel).logs = [] ∧
      (execute env wf input fuel).ghost_execs = [] ∧
      (execute env wf input fuel).status = .FAILED) := by
  have hmain : ∀ ctx : ExecutionContext, ctx.status = .RUNNING →
      (((executeMain env wf fuel ctx).status = .COMPLETED ∨
        (executeMain env wf fuel ctx).status = .FAILED) ∧
      ((executeMain env wf fuel ctx).status = .FAILED →
        ∃ e, (executeMain env wf fuel ctx).error = some e ∧ e ≠ "")) :=
    fun ctx hr => executeMain_status env wf fuel ctx hr hwf
  unfold execute
  by_cases hn : _needs_browser wf = true
  · rw [if_pos hn]
    cases hb : env.browserInit with
    | error e =>
      dsimp only
      refine ⟨Or.inr rfl, (fun h => nomatch h), ?_, ?_⟩
      · intro _
        exact ⟨"Failed to initialize browser: " ++ e, rfl, browser_msg_ne e⟩
      · intro e' _ hb'
        exact ⟨rfl, rfl, rfl⟩
    | ok u =>
      obtain ⟨h1, h2⟩ := hmain
        { ExecutionContext.init input with driver := true } rfl
      refine ⟨h1, ?_, h2, ?_⟩
      · intro h
        rcases h1 with h1 | h1 <;> rw [h] at h1 <;> exact nomatch h1
      · intro e' _ hb'
        exact nomatch hb'
  · rw [if_neg hn]
    obtain ⟨h1, h2⟩ := hmain (ExecutionContext.init input) rfl
    refine ⟨h1, ?_, h2, ?_⟩
    · intro h
      rcases h1 with h1 | h1 <;> rw [h] at h1 <;> exact nomatch h1
    · intro e' hn' _
      exact absurd hn' hn

theorem C2_terminal_status_witness :
    ((execute envW wfLoop [] 10).status = .COMPLETED ∨
      (execute envW wfLoop [] 10).status = .FAILED) ∧
    (execute envW wfLoop [] 10).status ≠ .RUNNING ∧
    ((execute envW wfLoop [] 10).status = .FAILED →
      ∃ e, (execute envW wfLoop [] 10).error = some e ∧ e ≠ "") ∧
    (∀ e, _needs_browser wfLoop = true → envW.browserInit = .error e →
      (execute envW wfLoop [] 10).logs = [] ∧
      (execute envW wfLoop [] 10).ghost_execs = [] ∧
      (execute envW wfLoop [] 10).status = .FAILED) :=
  C2_terminal_status envW wfLoop [] 10 envW_wf

theorem conn_src_ne_m1 (x : String) :
    "Connection references non-existent source node: " ++ x ≠
      "Workflow must have exactly one START node" := fun he =>
  nomatch congrArg (fun s : String => s.data.head?) he

theorem conn_src_ne_m2 (x : String) :
    "Connection references non-existent source node: " ++ x ≠
      "Workflow can only have one START node" := fun he =>
  nomatch congrArg (fun s : String => s.data.head?) he

theorem conn_tgt_ne_m1 (x : String) :
    "Connection references non-existent target node: " ++ x ≠
      "Workflow must have exactly one START node" := fun he =>
  nomatch congrArg (fun s : String => s.data.head?) he

theorem conn_tgt_ne_m2 (x : String) :
    "Connection references non-existent target node: " ++ x ≠
      "Workflow can only have one START node" := fun he =>
  nomatch congrArg (fun s : String => s.data.head?) he

/-- Neither start-count message can appear among the connection-endpoint
error messages. -/
theorem start_msgs_not_in_connectionErrors (nodes : List WorkflowNode) :
    ∀ conns : List NodeConnection,
      "Workflow must have exactly one START node" ∉
        connectionErrors nodes conns ∧
      "Workflow can only have one START node" ∉
        connectionErrors nodes conns := by
  intro conns
  induction conns with
  | nil => simp [connectionErrors]
  | cons conn rest ih =>
    unfold connectionErrors
    constructor
    · intro hmem
      rw [List.mem_append, List.mem_append] at hmem
      rcases hmem with (hmem | hmem) | hmem
      · split at hmem
        · cases hmem
        · rw [List.mem_singleton] at hmem
          exact conn_src_ne_m1 _ hmem.symm
      · split at hmem
        · cases hmem
        · rw [List.mem_singleton] at hmem
          exact conn_tgt_ne_m1 _ hmem.symm
      · exact ih.1 hmem
    · intro hmem
      rw [List.mem_append, List.mem_append] at hmem
      rcases hmem with (hmem | hmem) | hmem
      · split at hmem
        · cases hmem
        · rw [List.mem_singleton] at hmem
          exact conn_src_ne_m2 _ hmem.symm
      · split at hmem
        · cases hmem
        · rw [List.mem_singleton] at hmem
          exact conn_tgt_ne_m2 _ hmem.symm
      · exact ih.2 hmem

/-- C10: the typed `WorkflowDefinition` constructor rejects node lists with
zero or more than one START node (raising the respective message), and for
every definition it accepts, the service-side `validate_workflow` can never
emit either start-count error message — those branches are unreachable. -/
theorem C10_start_validation (nodes : List WorkflowNode)
    (conns : List NodeConnection) :
    ((nodes.filter (fun n => n.config.type == NodeType.START)).length = 0 →
      mkWorkflowDefinition nodes conns =
        .error "Workflow must have exactly one START node") ∧
    (1 < (nodes.filter (fun n => n.config.type == NodeType.START)).length →
      mkWorkflowDefinition nodes conns =
        .error "Workflow can only have one START node") ∧
    (∀ defn, mkWorkflowDefinition nodes conns = .ok defn →
      "Workflow must have exactly one START node" ∉
        (validate_workflow defn).errors ∧
      "Workflow can only have one START node" ∉
        (validate_workflow defn).errors) := by
  refine ⟨?_, ?_, ?_⟩
  · intro h0
    unfold mkWorkflowDefinition validate_start_node
    rw [if_pos h0]
  · intro h1
    unfold mkWorkflowDefinition validate_start_node
    rw [if_neg (by omega), if_pos h1]
  · intro defn hok
    unfold mkWorkflowDefinition validate_start_node at hok
    by_cases h0 : (nodes.filter
        (fun n => n.config.type == NodeType.START)).length = 0
    · rw [if_pos h0] at hok
      cases hok
    · rw [if_neg h0] at hok
      by_cases h1 : 1 < (nodes.filter
          (fun n => n.config.type == NodeType.START)).length
      · rw [if_pos h1] at hok
        cases hok
      · rw [if_neg h1] at hok
        dsimp only at hok
        injection hok with hok'
        subst hok'
        unfold validate_workflow
        dsimp only
        rw [if_neg h0, if_neg h1]
        simpa using start_msgs_not_in_connectionErrors nodes conns

theorem C10_start_validation_witness :
    "Workflow must have exactly one START node" ∉
      (validate_workflow wfSolo).errors ∧
    "Workflow can only have one START node" ∉
      (validate_workflow wfSolo).errors :=
  (C10_start_validation [mkNode "S" .START] []).2.2 wfSolo rfl

end Botasaurus
